import Mathlib

/-!
Shallow embedding of the vibetube-backend toggle/counter handlers and the
data model they manipulate, together with theorems settling the claims of
the specification against the code.

Conventions of the embedding:
* MongoDB ObjectIds are modelled as `Nat`; every id taken from a route
  parameter is assumed to be a well-formed ObjectId (the
  `mongoose.Types.ObjectId.isValid` guards therefore always pass and are
  not modelled).
* Counters (`likesCount`, `subscribersCount`, `views`) are `Int`, because
  the code updates them with unclamped `$inc` operations that could in
  principle drive them negative.
* A Mongo collection is a list of documents; `findOne`/`findById` is
  `List.find?`, `findByIdAndUpdate` maps the update over the documents
  matching the filter (the `_id` key), `findOneAndDelete`/`deleteOne`
  is `List.eraseP`.
* Query middleware registered with `schema.pre(['find','findOne',
  'findOneAndUpdate'], ...)` adds an `isDeleted: { $ne: true }` filter to
  exactly those query kinds; `findOneAndDelete` and `Model.deleteOne` are
  not in that list and therefore see soft-deleted documents.
* In a mongoose `post('save')` hook `doc.isNew` is `false` (mongoose
  resets the flag before post hooks run), so hooks guarded by
  `doc.isNew` have no effect; the Subscription model hook has no such
  guard and does run on every successful save.
-/

namespace VibeTube

/-- A User document (`part_034`, `userSchema`): only the fields the verified
handlers touch are carried. `subscribersCount` is the denormalized counter,
`watchHistory` the bounded recent-video list. -/
structure UserDoc where
  uid : Nat
  subscribersCount : Int
  watchHistory : List Nat
  deriving Repr, DecidableEq

/-- A Video document (`video.model.ts`): media fields the update handler can
touch, the owner reference, the publish/visibility/soft-delete flags, and the
denormalized `views` and `likesCount` counters. -/
structure VideoDoc where
  vid : Nat
  owner : Nat
  title : String
  description : String
  category : String
  tags : List Nat
  subscribersOnly : Bool
  isPublished : Bool
  isDeleted : Bool
  views : Int
  likesCount : Int
  deriving Repr, DecidableEq

/-- A Post document (`part_036`): id, soft-delete flag and its likes counter. -/
structure PostDoc where
  pid : Nat
  isDeleted : Bool
  likesCount : Int
  deriving Repr, DecidableEq

/-- A Comment document (`comment.model.ts`): id, soft-delete flag and its
likes counter. -/
structure CommentDoc where
  cid : Nat
  isDeleted : Bool
  likesCount : Int
  deriving Repr, DecidableEq

/-- A Like join document (`like.model.ts`): the polymorphic `type` string is
kept as an arbitrary `String` exactly as stored; the schema enum only
constrains documents passing through `Like.create`. Exactly one of the three
target fields is set by the controller. -/
structure LikeRow where
  ty : String
  video : Option Nat
  post : Option Nat
  comment : Option Nat
  likedBy : Nat
  deriving Repr, DecidableEq

/-- A Subscription join document (`subscription.model.ts`): `sid` is the
Mongo `_id` (used by `findByIdAndUpdate`/`findByIdAndDelete`), plus the
subscriber/channel references and the soft-delete flag. -/
structure SubRow where
  sid : Nat
  subscriber : Nat
  channel : Nat
  isDeleted : Bool
  deriving Repr, DecidableEq

/-- A View join document (`view.model.ts`): the video reference and the
viewer-or-ip identity, plus the soft-delete flag. -/
structure ViewRow where
  video : Nat
  viewer : Option Nat
  ipAddress : Option String
  isDeleted : Bool
  deriving Repr, DecidableEq

/-- The database state: one list per collection. `nextSubId` supplies the
fresh `_id` for a newly created Subscription document. -/
structure DB where
  users : List UserDoc
  videos : List VideoDoc
  posts : List PostDoc
  comments : List CommentDoc
  likes : List LikeRow
  subs : List SubRow
  views : List ViewRow
  nextSubId : Nat
  deriving Repr, DecidableEq

/-- The `ApiError` class (`apiError.ts`): status code, human message and
detail strings, as thrown by the handlers and consumed by the error
middleware. -/
structure ApiErr where
  statusCode : Nat
  message : String
  errors : List String
  deriving Repr, DecidableEq

deriving instance DecidableEq for Except

/-- Outcome of a handler: the value returned with the success response, or
the `ApiError` it throws; paired with the database state it leaves behind. -/
abbrev HOut (α : Type) := Except ApiErr α × DB

/-! ### Collection lookup helpers (mongoose queries) -/

/-- Model of `User.findById` - the User schema of `part_034` registers no query
middleware, so the lookup is unfiltered. -/
def findUser (db : DB) (id : Nat) : Option UserDoc :=
  db.users.find? (fun u => u.uid == id)

/-- Model of `Video.findById`/`Video.findOne({_id})` - the Video schema adds an
`isDeleted: { $ne: true }` filter to find queries. -/
def findVideo (db : DB) (id : Nat) : Option VideoDoc :=
  db.videos.find? (fun v => v.vid == id && !v.isDeleted)

/-- Model of `Video.findOne({_id, isPublished: true})` with the soft-delete filter. -/
def findPublishedVideo (db : DB) (id : Nat) : Option VideoDoc :=
  db.videos.find? (fun v => v.vid == id && v.isPublished && !v.isDeleted)

/-- Model of `Post.findById` with the Post schema soft-delete filter (`part_036`). -/
def findPost (db : DB) (id : Nat) : Option PostDoc :=
  db.posts.find? (fun p => p.pid == id && !p.isDeleted)

/-- Model of `Comment.findById` with the Comment schema soft-delete filter. -/
def findComment (db : DB) (id : Nat) : Option CommentDoc :=
  db.comments.find? (fun c => c.cid == id && !c.isDeleted)

/-- Model of `Subscription.findOne({subscriber, channel})`: the pre-findOne middleware
adds `isDeleted: { $ne: true }`, so only an active subscription is found. -/
def findActiveSub (db : DB) (uid cid : Nat) : Option SubRow :=
  db.subs.find? (fun s => s.subscriber == uid && s.channel == cid && !s.isDeleted)

/-- Model of `User.findByIdAndUpdate(cid, { $inc: { subscribersCount: d } })`: a
no-op when no user document has that id. -/
def incSubCount (db : DB) (cid : Nat) (d : Int) : DB :=
  { db with users := db.users.map (fun u =>
      if u.uid == cid then { u with subscribersCount := u.subscribersCount + d } else u) }

/-- Model of `Video.findByIdAndUpdate(vid, { $inc: { views: 1 } })`: findOneAndUpdate
runs through the soft-delete filter of the Video schema. -/
def incVideoViews (db : DB) (vid : Nat) (d : Int) : DB :=
  { db with videos := db.videos.map (fun v =>
      if v.vid == vid && !v.isDeleted then { v with views := v.views + d } else v) }

/-! ### Subscription handlers -/

/-- Model of `Subscription.create({subscriber, channel})`: mongoose validation passes
(both required fields are present), the unique compound index on
`(subscriber, channel)` - which is not partial, so soft-deleted rows still
occupy it - rejects a duplicate pair, and on success the `post('save')` hook
(which has no `isNew` guard and sees `isDeleted = false`) increments the
channel's `subscribersCount` once. -/
def subCreate (db : DB) (uid cid : Nat) : Except String DB :=
  if db.subs.any (fun s => s.subscriber == uid && s.channel == cid) then
    .error "E11000 duplicate key error on subscriber_1_channel_1"
  else
    .ok { (incSubCount db cid 1) with
          subs := db.subs ++ [{ sid := db.nextSubId, subscriber := uid,
                                channel := cid, isDeleted := false }],
          nextSubId := db.nextSubId + 1 }

/-- The update applied to one row by
`Subscription.findByIdAndUpdate(sid, { isDeleted: true, deletedAt })`. -/
def sdMark (sidv : Nat) (s : SubRow) : SubRow :=
  if s.sid == sidv && !s.isDeleted then { s with isDeleted := true } else s

/-- Model of `Subscription.findByIdAndUpdate(sid, { isDeleted: true, deletedAt })`:
findOneAndUpdate runs through the soft-delete filter, so only an active row
with that id is updated; no save hook fires on a query update. -/
def softDeleteSub (db : DB) (sidv : Nat) : DB :=
  { db with subs := db.subs.map (sdMark sidv) }

/-- Model of `toggleSubscription` (subscription.controller.ts, current revision,
lines 695-777). The subscribe branch runs `Promise.all` of
`Subscription.create` and a controller-side `$inc subscribersCount 1`; both
operations execute even when the create is rejected, so the increment is
applied first and the create outcome decides the response. The unsubscribe
branch runs `Promise.all` of `Subscription.findByIdAndDelete` - a hard
delete of the found row by its id - and the controller-side decrement. -/
def toggleSubscription (uid cid : Nat) (db : DB) : HOut Bool :=
  if cid == uid then
    (.error { statusCode := 400, message := "Cannot subscribe to yourself", errors := [] }, db)
  else
    match findActiveSub db uid cid with
    | some row =>
      -- Unsubscribe: Promise.all of the hard delete and the decrement.
      let db1 := incSubCount
        { db with subs := db.subs.eraseP (fun s => s.sid == row.sid) } cid (-1)
      (.ok false, db1)
    | none =>
      match findUser db cid with
      | none => (.error { statusCode := 404, message := "Channel not found", errors := [] }, db)
      | some _ =>
        let db1 := incSubCount db cid 1
        match subCreate db1 uid cid with
        | .error msg => (.error { statusCode := 500, message := msg, errors := [] }, db1)
        | .ok db2 => (.ok true, db2)

/-- Model of `toggleSubscription` (subscription.controller.ts, earlier revision,
lines 284-345): identical flow except that it performs no self-subscription
check. -/
def toggleSubscriptionOld (uid cid : Nat) (db : DB) : HOut Bool :=
  match findActiveSub db uid cid with
  | some row =>
    let db1 := incSubCount (softDeleteSub db row.sid) cid (-1)
    (.ok false, db1)
  | none =>
    match findUser db cid with
    | none => (.error { statusCode := 404, message := "Channel not found", errors := [] }, db)
    | some _ =>
      let db1 := incSubCount db cid 1
      match subCreate db1 uid cid with
      | .error msg => (.error { statusCode := 500, message := msg, errors := [] }, db1)
      | .ok db2 => (.ok true, db2)

/-- Model of `subscribe` (subscription.controller.ts, current revision, lines
552-629): self check, already-subscribed check, channel existence check,
then the same `Promise.all` create-plus-increment as the toggle. -/
def subscribe (uid cid : Nat) (db : DB) : HOut Unit :=
  if cid == uid then
    (.error { statusCode := 400, message := "Cannot subscribe to yourself", errors := [] }, db)
  else
    match findActiveSub db uid cid with
    | some _ =>
      (.error { statusCode := 400, message := "Already subscribed to this channel", errors := [] }, db)
    | none =>
      match findUser db cid with
      | none => (.error { statusCode := 404, message := "Channel not found", errors := [] }, db)
      | some _ =>
        let db1 := incSubCount db cid 1
        match subCreate db1 uid cid with
        | .error msg => (.error { statusCode := 500, message := msg, errors := [] }, db1)
        | .ok db2 => (.ok (), db2)

/-- Model of `unsubscribe` (subscription.controller.ts, current revision, lines
638-686): `Subscription.findOneAndDelete({subscriber, channel})` - this
query kind is not covered by the soft-delete middleware, so it matches and
hard-deletes a soft-deleted row as well - followed by the decrement when a
row was deleted. -/
def unsubscribe (uid cid : Nat) (db : DB) : HOut Unit :=
  match db.subs.find? (fun s => s.subscriber == uid && s.channel == cid) with
  | none => (.error { statusCode := 404, message := "Subscription not found", errors := [] }, db)
  | some row =>
    let db1 := { db with subs := db.subs.eraseP (fun s => s.sid == row.sid) }
    (.ok (), incSubCount db1 cid (-1))

/-! ### Counter observation helpers -/

/-- The stored `subscribersCount` of the user document with the given id
(0 when the user does not exist). -/
def subscribersCountOf (db : DB) (cid : Nat) : Int :=
  match findUser db cid with
  | some u => u.subscribersCount
  | none => 0

/-- Number of non-deleted Subscription rows of a row list referencing the
channel. -/
def aCnt (cid : Nat) (l : List SubRow) : Nat :=
  (l.filter (fun s => s.channel == cid && !s.isDeleted)).length

/-- Number of soft-deleted Subscription rows of a row list referencing the
channel. -/
def dCnt (cid : Nat) (l : List SubRow) : Nat :=
  (l.filter (fun s => s.channel == cid && s.isDeleted)).length

/-- Number of non-deleted Subscription rows referencing the channel. -/
def activeSubCount (db : DB) (cid : Nat) : Nat := aCnt cid db.subs

/-- Number of soft-deleted Subscription rows referencing the channel. -/
def softDelSubCount (db : DB) (cid : Nat) : Nat := dCnt cid db.subs

/-! ### Like handler -/

/-- The `enum` of the `type` path of the Like schema (`like.model.ts`,
lines 19-25). -/
def likeTypeEnum : List String := ["Comment", "Video", "Post"]

/-- ASCII lowercasing of one character, as `String.prototype.toLowerCase`
acts on the characters that can appear in a route parameter of this API. -/
def lowerChar (c : Char) : Char :=
  if 65 ≤ c.toNat && c.toNat ≤ 90 then Char.ofNat (c.toNat + 32) else c

/-- Model of `type.toLowerCase()` on a route parameter. -/
def toLowerStr (s : String) : String := ⟨s.data.map lowerChar⟩

/-- The predicate of the controller query
`Like.findOne({ type, [targetField]: targetId, likedBy })` for the
lowercased type string: the computed `[targetField]` key selects which of
the three reference fields must equal the target id. The current Like
schema registers no query middleware and has no `isDeleted` path, so the
query is unfiltered. -/
def likeQueryMatches (tyLower : String) (id uid : Nat) (l : LikeRow) : Bool :=
  l.ty == tyLower && l.likedBy == uid &&
    (if tyLower == "video" then l.video == some id
     else if tyLower == "post" then l.post == some id
     else l.comment == some id)

/-- Model of `Like.create(doc)`: mongoose first runs schema validation - `type` is
required and must be a member of `likeTypeEnum`, `likedBy` is required
(always present here) - then the insert must satisfy the unique sparse
indexes on `(likedBy, video)`, `(likedBy, post)` and `(likedBy, comment)`.
The `post('save')` hook is guarded by `doc.isNew`, which is `false` inside
a post-save hook, so it never increments anything. -/
def likeCreate (db : DB) (row : LikeRow) : Except String DB :=
  if (likeTypeEnum.contains row.ty) = false then
    .error "Like validation failed: type is not a valid enum value"
  else if db.likes.any (fun l => l.likedBy == row.likedBy &&
            ((row.video.isSome && l.video == row.video) ||
             (row.post.isSome && l.post == row.post) ||
             (row.comment.isSome && l.comment == row.comment))) then
    .error "E11000 duplicate key error on likedBy_target"
  else
    .ok { db with likes := db.likes ++ [row] }

/-- The stored `likesCount` of the target of the given lowercased type,
read through the soft-delete-filtered `findById` of the target model; the
controller defaults a missing counter with `target.likesCount || 0`. -/
def likesCountOfTarget (db : DB) (tyLower : String) (id : Nat) : Option Int :=
  if tyLower == "video" then (findVideo db id).map (fun v => v.likesCount)
  else if tyLower == "post" then (findPost db id).map (fun p => p.likesCount)
  else if tyLower == "comment" then (findComment db id).map (fun c => c.likesCount)
  else none

/-- Model of `targetModel.findByIdAndUpdate(targetId, { likesCount })`: a plain set
of the controller-computed value, through the soft-delete filter of the
target model. -/
def setTargetLikesCount (db : DB) (tyLower : String) (id : Nat) (n : Int) : DB :=
  if tyLower == "video" then
    { db with videos := db.videos.map (fun v =>
        if v.vid == id && !v.isDeleted then { v with likesCount := n } else v) }
  else if tyLower == "post" then
    { db with posts := db.posts.map (fun p =>
        if p.pid == id && !p.isDeleted then { p with likesCount := n } else p) }
  else
    { db with comments := db.comments.map (fun c =>
        if c.cid == id && !c.isDeleted then { c with likesCount := n } else c) }

/-- Model of `Math.max(0, likesCount - 1)` - the clamped decrement of the unlike
branch (like.controller.ts, line 84). -/
def clampedDec (c : Int) : Int := max 0 (c - 1)

/-- Model of `toggleLike` (like.controller.ts, lines 27-130). The target is looked
up first (404 when absent), then the existing like decides the branch:
unlike hard-deletes the row with `Like.deleteOne({_id})` - a query-level
delete, so the document-level `pre('deleteOne')` hook does not fire - and
writes the clamped decrement; like calls `Like.create` with the
lowercased type string and, on success, writes the incremented count. A
create failure is rethrown by the catch block as a 500 `ApiError`
(a mongoose `ValidationError` carries no `statusCode`). -/
def toggleLike (uid : Nat) (tyParam : String) (id : Nat) (db : DB) : HOut (Bool × Int) :=
  let tyLower := toLowerStr tyParam
  if (["video", "post", "comment"].contains tyLower) = false then
    (.error { statusCode := 400, message := "Invalid like type", errors := [] }, db)
  else
    match likesCountOfTarget db tyLower id with
    | none => (.error { statusCode := 404, message := tyParam ++ " not found", errors := [] }, db)
    | some count0 =>
      match db.likes.find? (likeQueryMatches tyLower id uid) with
      | some _ =>
        let newCount := clampedDec count0
        let db1 := { db with likes := db.likes.eraseP (likeQueryMatches tyLower id uid) }
        (.ok (false, newCount), setTargetLikesCount db1 tyLower id newCount)
      | none =>
        let row : LikeRow :=
          { ty := tyLower,
            video := if tyLower == "video" then some id else none,
            post := if tyLower == "post" then some id else none,
            comment := if tyLower == "comment" then some id else none,
            likedBy := uid }
        match likeCreate db row with
        | .error msg => (.error { statusCode := 500, message := msg, errors := [] }, db)
        | .ok db1 =>
          let newCount := count0 + 1
          (.ok (true, newCount), setTargetLikesCount db1 tyLower id newCount)

/-! ### View handler -/

/-- Model of `View.create(doc)`: `video` is required and present; the unique
compound indexes on `(video, viewer)` and `(video, ipAddress)` are sparse,
but a sparse compound index only skips a document missing every indexed
field - since `video` is always set, every View document is indexed in
both, with a null key for an absent `viewer` or `ipAddress`. A create is
therefore rejected whenever an existing row (soft-deleted ones included,
the indexes are not partial) carries the same `(video, viewer)` or
`(video, ipAddress)` key, absent fields colliding with absent fields. The
`post('save')` hook is guarded by `doc.isNew`, which is `false` inside a
post-save hook, so it never increments `views`. -/
def viewCreate (db : DB) (row : ViewRow) : Except String DB :=
  if db.views.any (fun w => w.video == row.video &&
        (w.viewer == row.viewer || w.ipAddress == row.ipAddress)) then
    .error "E11000 duplicate key error on view uniqueness"
  else
    .ok { db with views := db.views ++ [row] }

/-- Model of `logView` (view.controller.ts, lines 21-89). The video must exist and
be published; the view key is `(video, viewer)` for an authenticated user
and `(video, ipAddress)` otherwise; an existing active view short-circuits
with the already-logged 200 response. Otherwise `Promise.all` runs
`View.create` and the controller `$inc views 1`; both operations execute,
so the increment is applied and the create outcome decides the response.
The payload is the response (status, message) pair. -/
def logView (uidOpt : Option Nat) (ip : Option String) (vid : Nat) (db : DB) :
    HOut (Nat × String) :=
  match findPublishedVideo db vid with
  | none => (.error { statusCode := 404, message := "Video not found or not published", errors := [] }, db)
  | some _ =>
    let existing : Option ViewRow :=
      match uidOpt with
      | some u => db.views.find? (fun w => w.video == vid && w.viewer == some u && !w.isDeleted)
      | none => db.views.find? (fun w => w.video == vid && w.ipAddress == ip && !w.isDeleted)
    match existing with
    | some _ => (.ok (200, "View already logged recently"), db)
    | none =>
      let db1 := incVideoViews db vid 1
      match viewCreate db1 { video := vid, viewer := uidOpt, ipAddress := ip, isDeleted := false } with
      | .error msg => (.error { statusCode := 500, message := msg, errors := [] }, db1)
      | .ok db2 => (.ok (201, "View logged successfully"), db2)

/-! ### Video update and delete handlers -/

/-- The `enum` of the `category` path of the Video schema
(video.model.ts, line 84). -/
def videoCategoryEnum : List String :=
  ["Music", "Education", "Comedy", "Sports", "Gaming", "News",
   "Entertainment", "Lifestyle", "Other"]

/-- The PATCH body of `updateVideo`: all fields optional. -/
structure UpdateVideoBody where
  title : Option String
  description : Option String
  category : Option String
  tags : Option (List Nat)
  subscribersOnly : Option Bool
  deriving Repr, DecidableEq

/-- Model of `updateVideo` (video.controller.ts, lines 337-407). The single lookup
`Video.findOne({_id, owner: user._id})` (soft-delete filtered) enforces
ownership: a miss is a 404 before anything is written. The update keeps
the old value when a field is absent or falsy (`title?.trim() ||
video.title`, `category || video.category`), and replaces `tags`
wholesale when provided (ObjectId filtering is the identity here since
ids are already well-formed). -/
def updateVideo (uid vid : Nat) (body : UpdateVideoBody) (db : DB) : HOut Unit :=
  match db.videos.find? (fun v => v.vid == vid && v.owner == uid && !v.isDeleted) with
  | none => (.error { statusCode := 404, message := "Video not found or access denied", errors := [] }, db)
  | some video =>
    let newTitle := match body.title with
      | some t => if t.trim == "" then video.title else t.trim
      | none => video.title
    let newDescription := match body.description with
      | some d => if d.trim == "" then video.description else d.trim
      | none => video.description
    let newCategory := match body.category with
      | some c => if c == "" then video.category else c
      | none => video.category
    let newTags := match body.tags with
      | some ts => ts
      | none => video.tags
    let newSubsOnly := match body.subscribersOnly with
      | some b => b
      | none => video.subscribersOnly
    -- `runValidators: true`: the update validators of the $set paths run
    -- (title maxLength 100, description maxLength 500, category enum); a
    -- violation is rethrown by the catch block as a 500 ApiError.
    if newTitle.length > 100 || newDescription.length > 500 ||
        (videoCategoryEnum.contains newCategory) = false then
      (.error { statusCode := 500, message := "Video validation failed", errors := [] }, db)
    else
      let db1 := { db with videos := db.videos.map (fun v =>
          if v.vid == vid && !v.isDeleted then
            { v with title := newTitle, description := newDescription,
                     category := newCategory, tags := newTags,
                     subscribersOnly := newSubsOnly }
          else v) }
      (.ok (), db1)

/-- Model of `deleteVideo` (video.controller.ts, lines 416-463).
`Video.findOneAndDelete({_id, owner: user._id})` (this query kind is not
soft-delete filtered) enforces ownership: a miss is a 404 before anything
is deleted; a hit hard-deletes the video and then `Like.deleteMany({video})`
and `View.deleteMany({video})` remove the associated join rows. -/
def deleteVideo (uid vid : Nat) (db : DB) : HOut Unit :=
  match db.videos.find? (fun v => v.vid == vid && v.owner == uid) with
  | none => (.error { statusCode := 404, message := "Video not found or access denied", errors := [] }, db)
  | some video =>
    let db1 := { db with
      videos := db.videos.eraseP (fun v => v.vid == video.vid && v.owner == uid),
      likes := db.likes.filter (fun l => !(l.video == some vid)),
      views := db.views.filter (fun w => !(w.video == vid)) }
    (.ok (), db1)

/-! ### Watch-history handler -/

/-- One MongoDB array-update operator on a user document, restricted to the
shapes `addToWatchHistory` issues: `$pull` of one value from the array at a
path, or `$push` with `$each`/`$position`/`$slice` onto the array at a
path. -/
inductive UpdOp
  | pull (path : String) (value : Nat)
  | push (path : String) (values : List Nat) (position : Nat) (slice : Nat)
  deriving Repr, DecidableEq

/-- The path an operator addresses. -/
def UpdOp.path : UpdOp → String
  | .pull p _ => p
  | .push p _ _ _ => p

/-- MongoDB rejects an update document in which two operators address the
same path (write error 40, "Updating the path ... would create a conflict
at ..."). -/
def updateDocConflicts : List UpdOp → Bool
  | [] => false
  | o :: rest => rest.any (fun o2 => o2.path == o.path) || updateDocConflicts rest

/-- The effect of a single operator on the array it addresses: `$pull`
removes every occurrence of the value; `$push` with `$each`, `$position`
and a nonnegative `$slice` inserts the values at the position and keeps the
first `slice` elements. -/
def applyUpdOp (arr : List Nat) : UpdOp → List Nat
  | .pull _ v => arr.filter (fun x => !(x == v))
  | .push _ vs pos slice => ((arr.take pos) ++ vs ++ (arr.drop pos)).take slice

/-- Model of `findByIdAndUpdate` with an update document whose operators all address
the `watchHistory` array (the only array path `addToWatchHistory` ever
addresses): MongoDB first rejects a conflicting document, leaving the
stored array untouched; a non-conflicting document applies its operators. -/
def applyWatchHistoryUpdate (ops : List UpdOp) (arr : List Nat) :
    Except String (List Nat) :=
  if updateDocConflicts ops then
    .error "Updating the path watchHistory would create a conflict at watchHistory"
  else
    .ok (ops.foldl applyUpdOp arr)

/-- The update document of `addToWatchHistory` (`part_013`, lines 59-72):
a `$pull` of the video id from `watchHistory` and a `$push` of the same id
at position 0 with `$slice: 100`, both in one update document. -/
def watchHistoryUpdateDoc (vid : Nat) : List UpdOp :=
  [.pull "watchHistory" vid, .push "watchHistory" [vid] 0 100]

/-- Model of `addToWatchHistory` (`part_013`, lines 22-96): the video must exist and
be published; a subscribers-only video additionally requires an active
subscription of the caller to the owner; then the single
`User.findByIdAndUpdate` with `watchHistoryUpdateDoc` is issued. Its
rejection is rethrown by the catch block as a 500 `ApiError` (a Mongo
write error carries no `statusCode`). -/
def addToWatchHistory (uid vid : Nat) (db : DB) : HOut Unit :=
  match findPublishedVideo db vid with
  | none => (.error { statusCode := 404, message := "Video not found or not published", errors := [] }, db)
  | some video =>
    if video.subscribersOnly && !(findActiveSub db uid video.owner).isSome then
      (.error { statusCode := 403, message := "You must be a subscriber to view this video", errors := [] }, db)
    else
      match findUser db uid with
      | none =>
        -- findByIdAndUpdate on a missing user is a no-op and the handler
        -- proceeds to the success response.
        (.ok (), db)
      | some u =>
        match applyWatchHistoryUpdate (watchHistoryUpdateDoc vid) u.watchHistory with
        | .error msg => (.error { statusCode := 500, message := msg, errors := [] }, db)
        | .ok arr =>
          (.ok (), { db with users := db.users.map (fun w =>
              if w.uid == uid then { w with watchHistory := arr } else w) })

/-- Modelled from the spec: the intended effect of one watch-history
insertion - "removes `videoId` from the user's `watchHistory` array if
present, then prepends it, then truncates the array to the most recent 100
entries". Used to compare the intended semantics with the update document
the code actually issues. -/
def watchHistoryIntended (h : List Nat) (v : Nat) : List Nat :=
  (v :: h.filter (fun x => !(x == v))).take 100

/-! ### Error middleware and response envelope -/

/-- A runtime JavaScript value as it can appear in the `data` and `message`
slots of the response envelope: the middleware passes a string, a string
array, or nothing at all (undefined) into those slots. `jobjSpread`
represents the object produced by the `{ ...data, errors }` spread of
`ApiResponse.error`. -/
inductive JVal
  | jundef
  | jnull
  | jstr (s : String)
  | jstrArr (a : List String)
  | jobjSpread (base : JVal) (errors : List String)
  deriving Repr, DecidableEq

/-- The response envelope produced by the `ApiResponse` class
(apiResponse.ts): the serialized JSON object has exactly the fields
`statusCode`, `data`, `message`, `success` and optional `meta`; the class
never writes a top-level `errors` field. -/
structure Envelope where
  statusCode : Nat
  data : JVal
  message : JVal
  success : Bool
  deriving Repr, DecidableEq

/-- Model of `ApiResponse.error(statusCode, data, message, errors)` (apiResponse.ts,
lines 36-48): the constructor's `message` parameter has the default
`'Success'`, which applies when the static method forwards an `undefined`
message argument; the constructor sets `success := statusCode < 400`, the
static method then forces `success := false` and, when the `errors`
argument is nonempty, replaces `data` with the spread `{ ...data, errors }`.
The declared parameter order is `(statusCode, data, message, errors)`. -/
def apiResponseError (statusCode : Nat) (data : JVal) (message : JVal)
    (errors : List String) : Envelope :=
  let msg : JVal := match message with
    | .jundef => .jstr "Success"
    | m => m
  let ctor : Envelope :=
    { statusCode := statusCode, data := data, message := msg,
      success := decide (statusCode < 400) }
  let forced := { ctor with success := false }
  if errors.length > 0 then { forced with data := .jobjSpread data errors } else forced

/-- The error reaching the middleware: a propagated `ApiError`, or any
other unexpected failure. -/
inductive MWError
  | apiErr (e : ApiErr)
  | generic (message : String)
  deriving Repr, DecidableEq

/-- An HTTP response: the status passed to `res.status` and the JSON body. -/
structure HttpOut where
  status : Nat
  body : Envelope
  deriving Repr, DecidableEq

/-- Model of `errorMiddleware` (error.middleware.ts, lines 6-23), with the arguments
in the positions the source passes them: for an `ApiError` it calls
`ApiResponse.error(error.statusCode, error.message, error.errors)` - so
`error.message` lands in the `data` parameter, `error.errors` lands in the
`message` parameter and the `errors` parameter keeps its `[]` default - and
for any other error it calls `ApiResponse.error(500, "Internal server
error")`, leaving the `message` parameter undefined. -/
def errorMiddleware : MWError → HttpOut
  | .apiErr e =>
    { status := e.statusCode,
      body := apiResponseError e.statusCode (.jstr e.message) (.jstrArr e.errors) [] }
  | .generic _ =>
    { status := 500,
      body := apiResponseError 500 (.jstr "Internal server error") .jundef [] }

/-! ### Observations, operation alphabet and reachability -/

/-- The stored `views` counter of the first non-deleted video document with
the given id (0 when absent). -/
def viewsOf (db : DB) (vid : Nat) : Int :=
  match db.videos.find? (fun v => v.vid == vid && !v.isDeleted) with
  | some v => v.views
  | none => 0

/-- Counter consistency for subscriptions: every user document stores
exactly the number of active Subscription rows naming it as channel. -/
def SubConsistent (db : DB) : Prop :=
  ∀ u ∈ db.users, u.subscribersCount = (activeSubCount db u.uid : Int)

/-- One API operation of the toggle/counter family: a like toggle, a
subscription toggle, an explicit subscribe or unsubscribe, or a view log. -/
inductive Op
  | opToggleLike (uid : Nat) (ty : String) (id : Nat)
  | opToggleSubscription (uid cid : Nat)
  | opSubscribe (uid cid : Nat)
  | opUnsubscribe (uid cid : Nat)
  | opLogView (uidOpt : Option Nat) (ip : Option String) (vid : Nat)

/-- The state an operation leaves behind (its response is discarded). -/
def applyOp (db : DB) : Op → DB
  | .opToggleLike uid ty id => (toggleLike uid ty id db).2
  | .opToggleSubscription uid cid => (toggleSubscription uid cid db).2
  | .opSubscribe uid cid => (subscribe uid cid db).2
  | .opUnsubscribe uid cid => (unsubscribe uid cid db).2
  | .opLogView uidOpt ip vid => (logView uidOpt ip vid db).2

/-- A fresh deployment state: no join rows yet and every denormalized
counter at its schema default 0. -/
def InitialState (db : DB) : Prop :=
  db.likes = [] ∧ db.subs = [] ∧ db.views = [] ∧
  (∀ u ∈ db.users, u.subscribersCount = 0) ∧
  (∀ v ∈ db.videos, v.likesCount = 0) ∧
  (∀ p ∈ db.posts, p.likesCount = 0) ∧
  (∀ c ∈ db.comments, c.likesCount = 0)

/-- States reachable from a fresh deployment by any sequence of the five
operations with arbitrary arguments. -/
inductive Reachable : DB → Prop
  | init (db : DB) (h : InitialState db) : Reachable db
  | step (db : DB) (op : Op) (h : Reachable db) : Reachable (applyOp db op)

/-- Every denormalized like/subscriber counter is nonnegative. -/
def CountersNonneg (db : DB) : Prop :=
  (∀ u ∈ db.users, 0 ≤ u.subscribersCount) ∧
  (∀ v ∈ db.videos, 0 ≤ v.likesCount) ∧
  (∀ p ∈ db.posts, 0 ≤ p.likesCount) ∧
  (∀ c ∈ db.comments, 0 ≤ c.likesCount)

/-- Inductive invariant of the reachable states: every subscriber counter
dominates twice the active rows plus the soft-deleted rows of its channel
(each active row has both its soft-delete and its hard-delete decrement
still pending, a soft-deleted row only the hard-delete one), like counters
are nonnegative, and subscription row ids are bounded by `nextSubId` and
pairwise distinct. -/
def Inv (db : DB) : Prop :=
  (∀ u ∈ db.users,
    (2 * (activeSubCount db u.uid : Int) + (softDelSubCount db u.uid : Int)) ≤ u.subscribersCount) ∧
  (∀ v ∈ db.videos, 0 ≤ v.likesCount) ∧
  (∀ p ∈ db.posts, 0 ≤ p.likesCount) ∧
  (∀ c ∈ db.comments, 0 ≤ c.likesCount) ∧
  (∀ s ∈ db.subs, s.sid < db.nextSubId) ∧
  (db.subs.map (fun s => s.sid)).Nodup

/-- A small concrete state used by the counterexamples and witnesses: two
users with zero counters, one published video owned by user 2, and no join
rows. -/
def sampleDB : DB :=
  { users := [{ uid := 1, subscribersCount := 0, watchHistory := [] },
              { uid := 2, subscribersCount := 0, watchHistory := [] }],
    videos := [{ vid := 5, owner := 2, title := "t", description := "",
                 category := "Other", tags := [], subscribersOnly := false,
                 isPublished := true, isDeleted := false,
                 views := 0, likesCount := 0 }],
    posts := [], comments := [], likes := [], subs := [], views := [],
    nextSubId := 0 }

/-- The Subscription document `subCreate` inserts for a `(subscriber,
channel)` pair, carrying the next fresh id. -/
def newSubRow (db : DB) (uid cid : Nat) : SubRow :=
  { sid := db.nextSubId, subscriber := uid, channel := cid, isDeleted := false }

/-- A state like `sampleDB` in which user 2 has already logged a view of
video 5 from ip 198.51.100.7: the View row occupies the `(video,
ipAddress)` unique index entry for that ip and the stored views counter
already reflects the one row. -/
def ipCollisionDB : DB :=
  { sampleDB with
    videos := [{ vid := 5, owner := 2, title := "t", description := "",
                 category := "Other", tags := [], subscribersOnly := false,
                 isPublished := true, isDeleted := false,
                 views := 1, likesCount := 0 }],
    views := [{ video := 5, viewer := some 2, ipAddress := some "198.51.100.7",
                isDeleted := false }] }

/-! ## Shared helper lemmas -/

instance (db : DB) : Decidable (SubConsistent db) := by
  unfold SubConsistent; infer_instance

instance (db : DB) : Decidable (InitialState db) := by
  unfold InitialState; infer_instance

instance (db : DB) : Decidable (CountersNonneg db) := by
  unfold CountersNonneg; infer_instance

instance (db : DB) : Decidable (Inv db) := by
  unfold Inv; infer_instance

/-- Incrementing a subscriber counter does not touch the subscription rows. -/
theorem subs_incSubCount (db : DB) (c : Nat) (d : Int) :
    (incSubCount db c d).subs = db.subs := rfl

/-- Incrementing a subscriber counter does not touch the id counter. -/
theorem nextSubId_incSubCount (db : DB) (c : Nat) (d : Int) :
    (incSubCount db c d).nextSubId = db.nextSubId := rfl

/-- A user lookup after an increment finds the incremented document. -/
theorem findUser_incSubCount (db : DB) (c : Nat) (d : Int) (x : Nat) :
    findUser (incSubCount db c d) x =
      (findUser db x).map (fun u =>
        if u.uid == c then { u with subscribersCount := u.subscribersCount + d } else u) := by
  unfold findUser incSubCount
  rw [List.find?_map]
  have hpf : ((fun u : UserDoc => u.uid == x) ∘ fun u =>
      if (u.uid == c) = true then { u with subscribersCount := u.subscribersCount + d } else u)
      = fun u : UserDoc => u.uid == x := by
    funext u
    by_cases h : (u.uid == c) = true <;> simp [Function.comp, h]
  rw [hpf]

/-- Incrementing preserves which users exist. -/
theorem findUser_incSubCount_isSome (db : DB) (c : Nat) (d : Int) (x : Nat) :
    (findUser (incSubCount db c d) x).isSome = (findUser db x).isSome := by
  rw [findUser_incSubCount]
  cases findUser db x <;> rfl

/-- Incrementing the channel counter adds `d` to the stored count of an
existing channel. -/
theorem subscribersCountOf_incSubCount_self (db : DB) (c : Nat) (d : Int)
    (h : (findUser db c).isSome = true) :
    subscribersCountOf (incSubCount db c d) c = subscribersCountOf db c + d := by
  unfold subscribersCountOf
  rw [findUser_incSubCount]
  obtain ⟨u, hu⟩ := Option.isSome_iff_exists.mp h
  have hu2 : db.users.find? (fun w => w.uid == c) = some u := hu
  have huc := List.find?_some hu2
  rw [hu]
  simp [beq_iff_eq.mp huc]

/-- The active-row count of an appended list. -/
theorem aCnt_append (cid : Nat) (l1 l2 : List SubRow) :
    aCnt cid (l1 ++ l2) = aCnt cid l1 + aCnt cid l2 := by
  unfold aCnt
  rw [List.filter_append, List.length_append]

/-- The soft-deleted-row count of an appended list. -/
theorem dCnt_append (cid : Nat) (l1 l2 : List SubRow) :
    dCnt cid (l1 ++ l2) = dCnt cid l1 + dCnt cid l2 := by
  unfold dCnt
  rw [List.filter_append, List.length_append]

/-- Evaluation of `toggleSubscription` on the successful subscribe branch. -/
theorem toggleSubscription_subscribe_eq (db : DB) (uid cid : Nat) (u : UserDoc)
    (hself : (cid == uid) = false)
    (hfa : findActiveSub db uid cid = none)
    (hu : findUser db cid = some u)
    (hany : (db.subs.any fun s => s.subscriber == uid && s.channel == cid) = false) :
    toggleSubscription uid cid db =
      (.ok true,
       { incSubCount (incSubCount db cid 1) cid 1 with
         subs := db.subs ++ [{ sid := db.nextSubId, subscriber := uid,
                               channel := cid, isDeleted := false }],
         nextSubId := db.nextSubId + 1 }) := by
  unfold toggleSubscription subCreate
  rw [hself, hfa, hu]
  simp only [subs_incSubCount, nextSubId_incSubCount, hany, Bool.false_eq_true, if_false]

/-! ## Claim C1 -/

/-- C1 (counterexample): from the consistent empty sample state, a single
`toggleSubscription` in the subscribe direction returns success but leaves
the channel's stored `subscribersCount` at 2 while exactly one non-deleted
Subscription row references the channel - the model post-save hook and the
controller both increment - so the stored counter does not equal the count
of active join rows. -/
theorem toggleSubscription_single_subscribe_ce :
    SubConsistent sampleDB ∧
    (toggleSubscription 1 2 sampleDB).1 = .ok true ∧
    activeSubCount (toggleSubscription 1 2 sampleDB).2 2 = 1 ∧
    subscribersCountOf (toggleSubscription 1 2 sampleDB).2 2 = 2 := by
  decide

/-- C1 (amended): starting from a state whose subscriber counters are
consistent, a single `toggleSubscription` in the subscribe direction (the
channel exists, is not the caller, and has no Subscription row at all for
the pair) succeeds and leaves the channel's stored `subscribersCount`
equal to the count of non-deleted Subscription rows referencing it plus
one: the post-save hook of the Subscription model and the controller each
add 1 while exactly one active row is created. -/
theorem toggleSubscription_subscribe_counter_plus_one (db : DB) (uid cid : Nat)
    (hcons : SubConsistent db) (hne : uid ≠ cid)
    (hchan : (findUser db cid).isSome = true)
    (hnorow : ∀ s ∈ db.subs, ¬(s.subscriber = uid ∧ s.channel = cid)) :
    (toggleSubscription uid cid db).1 = .ok true ∧
    subscribersCountOf (toggleSubscription uid cid db).2 cid =
      (activeSubCount (toggleSubscription uid cid db).2 cid : Int) + 1 := by
  have hself : (cid == uid) = false := beq_eq_false_iff_ne.mpr (Ne.symm hne)
  have hfa : findActiveSub db uid cid = none := by
    unfold findActiveSub
    rw [List.find?_eq_none]
    intro s hs hcon
    simp only [Bool.and_eq_true, beq_iff_eq, Bool.not_eq_true'] at hcon
    exact hnorow s hs ⟨hcon.1.1, hcon.1.2⟩
  obtain ⟨u, hu⟩ := Option.isSome_iff_exists.mp hchan
  have hu2 : db.users.find? (fun w => w.uid == cid) = some u := hu
  have huc := List.find?_some hu2
  have humem : u ∈ db.users := List.mem_of_find?_eq_some hu2
  have hany : (db.subs.any fun s => s.subscriber == uid && s.channel == cid) = false := by
    rw [List.any_eq_false]
    intro s hs
    have h2 := hnorow s hs
    simp only [Bool.and_eq_true, beq_iff_eq]
    exact h2
  rw [toggleSubscription_subscribe_eq db uid cid u hself hfa hu hany]
  refine ⟨rfl, ?_⟩
  have hchan1 : (findUser (incSubCount db cid 1) cid).isSome = true := by
    rw [findUser_incSubCount_isSome]; exact hchan
  have hsc2 :
      subscribersCountOf
        { incSubCount (incSubCount db cid 1) cid 1 with
          subs := db.subs ++ [{ sid := db.nextSubId, subscriber := uid,
                                channel := cid, isDeleted := false }],
          nextSubId := db.nextSubId + 1 } cid
        = subscribersCountOf (incSubCount (incSubCount db cid 1) cid 1) cid := rfl
  have ha2 :
      activeSubCount
        { incSubCount (incSubCount db cid 1) cid 1 with
          subs := db.subs ++ [{ sid := db.nextSubId, subscriber := uid,
                                channel := cid, isDeleted := false }],
          nextSubId := db.nextSubId + 1 } cid
        = aCnt cid db.subs + 1 := by
    unfold activeSubCount
    show aCnt cid (db.subs ++ [_]) = aCnt cid db.subs + 1
    rw [aCnt_append]
    simp [aCnt]
  rw [hsc2, ha2,
      subscribersCountOf_incSubCount_self _ _ _ hchan1,
      subscribersCountOf_incSubCount_self _ _ _ hchan]
  have hcnt : subscribersCountOf db cid = (activeSubCount db cid : Int) := by
    have h3 := hcons u humem
    unfold subscribersCountOf
    rw [hu]
    show u.subscribersCount = _
    rw [h3, beq_iff_eq.mp huc]
  rw [hcnt]
  unfold activeSubCount
  push_cast
  ring

/-- C1 (amended, witness): the amended statement evaluated at the sample
state with actor 1 and channel 2. -/
theorem toggleSubscription_subscribe_counter_plus_one_witness :
    (toggleSubscription 1 2 sampleDB).1 = .ok true ∧
    subscribersCountOf (toggleSubscription 1 2 sampleDB).2 2 =
      (activeSubCount (toggleSubscription 1 2 sampleDB).2 2 : Int) + 1 :=
  toggleSubscription_subscribe_counter_plus_one sampleDB 1 2
    (by decide) (by decide) (by decide) (by decide)

/-! ## Claim C2 -/

/-- Soft-deleting a subscription row does not touch the user documents. -/
theorem findUser_softDeleteSub (db : DB) (sidv x : Nat) :
    findUser (softDeleteSub db sidv) x = findUser db x := rfl

/-- Soft-deleting a subscription row keeps the stored counters. -/
theorem subscribersCountOf_softDeleteSub (db : DB) (sidv c : Nat) :
    subscribersCountOf (softDeleteSub db sidv) c = subscribersCountOf db c := rfl

/-- Applying `sdMark` to a row with a different id leaves it unchanged. -/
theorem sdMark_id_of_ne (sidv : Nat) (s : SubRow) (h : s.sid ≠ sidv) :
    sdMark sidv s = s := by
  unfold sdMark
  rw [if_neg]
  simp only [Bool.and_eq_true, beq_iff_eq, not_and]
  intro hc
  exact absurd hc h

/-- Mapping `sdMark` over rows none of which carry the id is the identity. -/
theorem map_sdMark_id (l : List SubRow) (sidv : Nat) (h : ∀ s ∈ l, s.sid ≠ sidv) :
    l.map (sdMark sidv) = l := by
  induction l with
  | nil => rfl
  | cons a t ih =>
    rw [List.map_cons, sdMark_id_of_ne sidv a (h a (List.mem_cons_self a t)),
        ih (fun s hs => h s (List.mem_cons_of_mem a hs))]

/-- Evaluation of `toggleSubscription` on the unsubscribe branch. -/
theorem toggleSubscription_unsub_eq (db : DB) (uid cid : Nat) (row : SubRow)
    (hself : (cid == uid) = false)
    (hfa : findActiveSub db uid cid = some row) :
    toggleSubscription uid cid db =
      (.ok false,
       incSubCount { db with subs := db.subs.eraseP (fun s => s.sid == row.sid) }
         cid (-1)) := by
  unfold toggleSubscription
  rw [hself]
  simp only [Bool.false_eq_true, if_false, hfa]

/-- A `Like.create` whose document carries a type string outside the schema
enum fails validation. -/
theorem likeCreate_enum_fail (db : DB) (row : LikeRow)
    (h : (likeTypeEnum.contains row.ty) = false) :
    likeCreate db row = .error "Like validation failed: type is not a valid enum value" := by
  unfold likeCreate
  rw [h, if_pos rfl]

/-- C2 (counterexample): actor 1 toggling the subscription to channel 2
twice from the consistent empty sample state returns the subscription
status to inactive but leaves the stored `subscribersCount` at 1, not at
its original value 0, so the double toggle does not restore the counter. -/
theorem toggleSubscription_double_toggle_ce :
    findActiveSub ((toggleSubscription 1 2 (toggleSubscription 1 2 sampleDB).2).2) 1 2 = none ∧
    findActiveSub sampleDB 1 2 = none ∧
    subscribersCountOf sampleDB 2 = 0 ∧
    subscribersCountOf ((toggleSubscription 1 2 (toggleSubscription 1 2 sampleDB).2).2) 2 = 1 := by
  decide

/-- C2 (amended): for `toggleSubscription`, two toggles by the same actor
on the same existing channel (not the actor, with no Subscription row at
all for the pair, in a state with well-formed row ids) restore the
actor's active-subscription status to inactive, but leave the stored
`subscribersCount` at its original value plus one (the subscribe leg adds
2 - post-save hook plus controller - and the unsubscribe leg subtracts 1).
For `toggleLike`, on an existing target for which the actor has no
matching like row, the like leg always fails Like-schema validation (the
controller passes the lowercased type, the enum is capitalized), so both
calls return a 500 error and leave the state - status and counter -
unchanged. -/
theorem double_toggle_status_and_counter (db : DB) (uid cid : Nat)
    (tyParam : String) (id : Nat)
    (hne : uid ≠ cid)
    (hchan : (findUser db cid).isSome = true)
    (hnorow : ∀ s ∈ db.subs, ¬(s.subscriber = uid ∧ s.channel = cid))
    (hsid : ∀ s ∈ db.subs, s.sid < db.nextSubId)
    (hty : (["video", "post", "comment"].contains (toLowerStr tyParam)) = true)
    (htarget : (likesCountOfTarget db (toLowerStr tyParam) id).isSome = true)
    (hnolike : db.likes.find? (likeQueryMatches (toLowerStr tyParam) id uid) = none) :
    ((toggleSubscription uid cid db).1 = .ok true ∧
     (toggleSubscription uid cid (toggleSubscription uid cid db).2).1 = .ok false ∧
     findActiveSub db uid cid = none ∧
     findActiveSub (toggleSubscription uid cid (toggleSubscription uid cid db).2).2 uid cid = none ∧
     subscribersCountOf (toggleSubscription uid cid (toggleSubscription uid cid db).2).2 cid =
       subscribersCountOf db cid + 1) ∧
    ((toggleLike uid tyParam id db).1 =
       .error { statusCode := 500,
                message := "Like validation failed: type is not a valid enum value",
                errors := [] } ∧
     (toggleLike uid tyParam id db).2 = db ∧
     (toggleLike uid tyParam id (toggleLike uid tyParam id db).2).2 = db) := by
  have hself : (cid == uid) = false := beq_eq_false_iff_ne.mpr (Ne.symm hne)
  have hfa : findActiveSub db uid cid = none := by
    unfold findActiveSub
    rw [List.find?_eq_none]
    intro s hs hcon
    simp only [Bool.and_eq_true, beq_iff_eq, Bool.not_eq_true'] at hcon
    exact hnorow s hs ⟨hcon.1.1, hcon.1.2⟩
  obtain ⟨u, hu⟩ := Option.isSome_iff_exists.mp hchan
  have hany : (db.subs.any fun s => s.subscriber == uid && s.channel == cid) = false := by
    rw [List.any_eq_false]
    intro s hs
    have h2 := hnorow s hs
    simp only [Bool.and_eq_true, beq_iff_eq]
    exact h2
  have ht1 := toggleSubscription_subscribe_eq db uid cid u hself hfa hu hany
  constructor
  · -- subscription conjunct
    set row : SubRow :=
      { sid := db.nextSubId, subscriber := uid, channel := cid, isDeleted := false } with hrow
    have hA :
        (toggleSubscription uid cid db).2 =
          { incSubCount (incSubCount db cid 1) cid 1 with
            subs := db.subs ++ [row], nextSubId := db.nextSubId + 1 } := by
      rw [ht1]
    have hfa2 :
        findActiveSub (toggleSubscription uid cid db).2 uid cid = some row := by
      rw [hA]
      show (db.subs ++ [row]).find?
          (fun s => s.subscriber == uid && s.channel == cid && !s.isDeleted) = some row
      rw [List.find?_append]
      have hl : db.subs.find?
          (fun s => s.subscriber == uid && s.channel == cid && !s.isDeleted) = none := hfa
      rw [hl]
      simp [hrow]
    have ht2 := toggleSubscription_unsub_eq (toggleSubscription uid cid db).2 uid cid row
      hself hfa2
    have herased :
        (toggleSubscription uid cid db).2.subs.eraseP (fun s => s.sid == row.sid) =
          db.subs := by
      rw [hA]
      show (db.subs ++ [row]).eraseP (fun s => s.sid == row.sid) = db.subs
      rw [List.eraseP_append_right _ (fun s hs => by
            rw [beq_eq_false_iff_ne.mpr (Nat.ne_of_lt (hsid s hs))]
            exact Bool.false_ne_true),
          List.eraseP_cons_of_pos (by simp), List.append_nil]
    refine ⟨by rw [ht1], by rw [ht2], hfa, ?_, ?_⟩
    · -- final status inactive
      rw [ht2]
      show ((toggleSubscription uid cid db).2.subs.eraseP
          (fun s => s.sid == row.sid)).find?
          (fun s => s.subscriber == uid && s.channel == cid && !s.isDeleted) = none
      rw [herased]
      exact hfa
    · -- final counter
      rw [ht2]
      have hsomeA : (findUser (toggleSubscription uid cid db).2 cid).isSome = true := by
        rw [hA]
        show (findUser (incSubCount (incSubCount db cid 1) cid 1) cid).isSome = true
        rw [findUser_incSubCount_isSome, findUser_incSubCount_isSome]
        exact hchan
      have hsomeE :
          (findUser { (toggleSubscription uid cid db).2 with
            subs := (toggleSubscription uid cid db).2.subs.eraseP
              (fun s => s.sid == row.sid) } cid).isSome = true := hsomeA
      rw [subscribersCountOf_incSubCount_self _ _ _ hsomeE]
      have hsub : subscribersCountOf
          { (toggleSubscription uid cid db).2 with
            subs := (toggleSubscription uid cid db).2.subs.eraseP
              (fun s => s.sid == row.sid) } cid =
          subscribersCountOf (toggleSubscription uid cid db).2 cid := rfl
      rw [hsub]
      have hcA : subscribersCountOf (toggleSubscription uid cid db).2 cid =
          subscribersCountOf db cid + 2 := by
        rw [hA]
        show subscribersCountOf (incSubCount (incSubCount db cid 1) cid 1) cid = _
        rw [subscribersCountOf_incSubCount_self _ _ _ (by
              rw [findUser_incSubCount_isSome]; exact hchan),
            subscribersCountOf_incSubCount_self _ _ _ hchan]
        ring
      rw [hcA]
      ring
  · -- like conjunct
    have htl : toLowerStr tyParam = "video" ∨ toLowerStr tyParam = "post" ∨
        toLowerStr tyParam = "comment" := by
      have h := hty
      simp only [List.contains_cons, List.contains_nil, Bool.or_eq_true,
        beq_iff_eq, Bool.false_eq_true, or_false] at h
      exact h
    obtain ⟨c0, hc0⟩ := Option.isSome_iff_exists.mp htarget
    have hmain : toggleLike uid tyParam id db =
        (.error { statusCode := 500,
                  message := "Like validation failed: type is not a valid enum value",
                  errors := [] }, db) := by
      unfold toggleLike
      simp only [hty, if_true, hc0, hnolike]
      have hcreate : likeCreate db
          { ty := toLowerStr tyParam,
            video := if toLowerStr tyParam == "video" then some id else none,
            post := if toLowerStr tyParam == "post" then some id else none,
            comment := if toLowerStr tyParam == "comment" then some id else none,
            likedBy := uid } =
          .error "Like validation failed: type is not a valid enum value" := by
        rcases htl with h | h | h
        · rw [h]
          exact likeCreate_enum_fail db _
            (by decide : (likeTypeEnum.contains "video") = false)
        · rw [h]
          exact likeCreate_enum_fail db _
            (by decide : (likeTypeEnum.contains "post") = false)
        · rw [h]
          exact likeCreate_enum_fail db _
            (by decide : (likeTypeEnum.contains "comment") = false)
      rw [hcreate]
      rfl
    exact ⟨by rw [hmain], by rw [hmain], by rw [hmain]; rw [hmain]⟩

/-- C2 (amended, witness): the amended statement evaluated at the sample
state, with actor 1, channel 2 and the like toggle aimed at video 5. -/
theorem double_toggle_status_and_counter_witness :
    (((toggleSubscription 1 2 sampleDB).1 = .ok true ∧
     (toggleSubscription 1 2 (toggleSubscription 1 2 sampleDB).2).1 = .ok false ∧
     findActiveSub sampleDB 1 2 = none ∧
     findActiveSub (toggleSubscription 1 2 (toggleSubscription 1 2 sampleDB).2).2 1 2 = none ∧
     subscribersCountOf (toggleSubscription 1 2 (toggleSubscription 1 2 sampleDB).2).2 2 =
       subscribersCountOf sampleDB 2 + 1) ∧
    ((toggleLike 1 "video" 5 sampleDB).1 =
       .error { statusCode := 500,
                message := "Like validation failed: type is not a valid enum value",
                errors := [] } ∧
     (toggleLike 1 "video" 5 sampleDB).2 = sampleDB ∧
     (toggleLike 1 "video" 5 (toggleLike 1 "video" 5 sampleDB).2).2 = sampleDB)) :=
  double_toggle_status_and_counter sampleDB 1 2 "video" 5
    (by decide) (by decide) (by decide) (by decide) (by decide) (by decide) (by decide)

/-! ## Claim C7 -/

/-- C7 (counterexample): the earlier revision of `toggleSubscription`
(subscription.controller.ts, lines 284-345) performs no self-subscription
check: user 1 toggling a subscription to their own channel succeeds,
creates a Subscription record, and raises their own `subscribersCount`
from 0 to 2, so self-subscription rejection does not hold in every
handler revision present in the source. -/
theorem toggleSubscriptionOld_self_subscription_ce :
    (toggleSubscriptionOld 1 1 sampleDB).1 = .ok true ∧
    (toggleSubscriptionOld 1 1 sampleDB).2.subs =
      [{ sid := 0, subscriber := 1, channel := 1, isDeleted := false }] ∧
    subscribersCountOf sampleDB 1 = 0 ∧
    subscribersCountOf (toggleSubscriptionOld 1 1 sampleDB).2 1 = 2 := by
  decide

/-- C7 (amended): in the current revision of the subscription controller,
both subscription-creating handlers - `toggleSubscription` and `subscribe` -
reject a request whose channel id equals the caller's id with a 400
BadRequest, create no Subscription record and leave every counter
unchanged (the state is returned untouched); the earlier revision of
`toggleSubscription` does not enforce this. -/
theorem self_subscription_rejected_current_revision (db : DB) (uid : Nat) :
    toggleSubscription uid uid db =
      (.error { statusCode := 400, message := "Cannot subscribe to yourself", errors := [] }, db) ∧
    subscribe uid uid db =
      (.error { statusCode := 400, message := "Cannot subscribe to yourself", errors := [] }, db) := by
  constructor
  · unfold toggleSubscription
    rw [if_pos (by simp)]
  · unfold subscribe
    rw [if_pos (by simp)]

/-! ## Claim C9 -/

/-- C9 (code-bug evaluation): the error middleware passes its arguments to
`ApiResponse.error` in the wrong positions - the declared signature is
`(statusCode, data, message, errors)`, the call passes
`(statusCode, message, errors)` - so for a propagated
`ApiError(404, "Video not found", ["id 42 missing"])` the envelope carries
the human-readable message in `data`, the error-detail strings in
`message`, and no `errors` key at all; and on the generic branch the call
`ApiResponse.error(500, "Internal server error")` leaves the `message`
parameter undefined, so the constructor default applies and the client
receives the literal `message: "Success"` on a failure envelope. The HTTP
status and `success:false` are the only parts of the claim that hold. -/
theorem errorMiddleware_envelope_fields_swapped :
    errorMiddleware (.apiErr { statusCode := 404, message := "Video not found",
                               errors := ["id 42 missing"] }) =
      { status := 404,
        body := { statusCode := 404,
                  data := .jstr "Video not found",
                  message := .jstrArr ["id 42 missing"],
                  success := false } } ∧
    (errorMiddleware (.apiErr { statusCode := 404, message := "Video not found",
                                errors := ["id 42 missing"] })).body.message ≠
      .jstr "Video not found" ∧
    errorMiddleware (.generic "boom") =
      { status := 500,
        body := { statusCode := 500,
                  data := .jstr "Internal server error",
                  message := .jstr "Success",
                  success := false } } := by
  decide

/-! ## Claim C10 -/

/-- C10 (code-bug evaluation): `toggleLike` lowercases the type before
passing it to `Like.create`, but the Like schema enum is the capitalized
list, so none of the three values the controller can produce is a member
of the enum and the create branch always fails schema validation: on the
sample state (video 5 exists, no prior like) the request returns a 500
validation error and creates no Like row. -/
theorem toggleLike_create_enum_mismatch :
    (likeTypeEnum.contains "video") = false ∧
    (likeTypeEnum.contains "post") = false ∧
    (likeTypeEnum.contains "comment") = false ∧
    toggleLike 1 "video" 5 sampleDB =
      (.error { statusCode := 500,
                message := "Like validation failed: type is not a valid enum value",
                errors := [] }, sampleDB) ∧
    (toggleLike 1 "video" 5 sampleDB).2.likes = [] := by
  decide

/-! ## Claim C4 -/

/-- Helper: filtering one occurrence of a present value out of a
duplicate-free list shortens it by exactly one. -/
theorem length_filter_out_of_nodup (h : List Nat) (v : Nat)
    (hnd : h.Nodup) (hmem : v ∈ h) :
    (h.filter (fun x => !(x == v))).length + 1 = h.length := by
  induction h with
  | nil => cases hmem
  | cons a t ih =>
    rcases List.nodup_cons.mp hnd with ⟨hna, hnt⟩
    by_cases hav : a = v
    · subst hav
      have hid : t.filter (fun x => !(x == a)) = t := by
        rw [List.filter_eq_self]
        intro x hx
        simp only [Bool.not_eq_true', beq_eq_false_iff_ne]
        intro hxa
        exact hna (hxa ▸ hx)
      simp [hid]
    · have hvt : v ∈ t := by
        rcases List.mem_cons.mp hmem with h1 | h1
        · exact absurd h1.symm hav
        · exact h1
      have hfa : (a == v) = false := beq_eq_false_iff_ne.mpr hav
      simp only [List.filter_cons, hfa, Bool.not_false, if_true, List.length_cons]
      rw [ih hnt hvt]

/-- C4 (code-bug evaluation): the update document of `addToWatchHistory`
addresses the `watchHistory` path with both a `$pull` and a `$push` in one
`findByIdAndUpdate`; MongoDB rejects such conflicting operators, so the
handler always answers 500 and leaves the state - including the user's
stored history - unchanged. The remaining conjuncts confirm the claim
describes the intended semantics: applying the two operators in sequence
is exactly remove-then-prepend-then-truncate, whose result never exceeds
100 entries, stays duplicate-free, and keeps its length when re-inserting
an already-present id. -/
theorem addToWatchHistory_conflicting_update :
    updateDocConflicts (watchHistoryUpdateDoc 5) = true ∧
    addToWatchHistory 1 5 sampleDB =
      (.error { statusCode := 500,
                message := "Updating the path watchHistory would create a conflict at watchHistory",
                errors := [] }, sampleDB) ∧
    (∀ (h : List Nat) (v : Nat),
      applyUpdOp (applyUpdOp h (UpdOp.pull "watchHistory" v))
          (UpdOp.push "watchHistory" [v] 0 100) = watchHistoryIntended h v) ∧
    (∀ (h : List Nat) (v : Nat), (watchHistoryIntended h v).length ≤ 100) ∧
    (∀ (h : List Nat) (v : Nat), h.Nodup → (watchHistoryIntended h v).Nodup) ∧
    (∀ (h : List Nat) (v : Nat), h.Nodup → v ∈ h → h.length ≤ 100 →
      (watchHistoryIntended h v).length = h.length) := by
  refine ⟨by decide, by decide, ?_, ?_, ?_, ?_⟩
  · intro h v
    simp [applyUpdOp, watchHistoryIntended]
  · intro h v
    unfold watchHistoryIntended
    rw [List.length_take]
    exact Nat.min_le_left _ _
  · intro h v hnd
    unfold watchHistoryIntended
    refine List.Sublist.nodup (List.take_sublist _ _) ?_
    rw [List.nodup_cons]
    constructor
    · intro hmem
      have := (List.mem_filter.mp hmem).2
      simp at this
    · exact List.Nodup.filter _ hnd
  · intro h v hnd hmem hlen
    unfold watchHistoryIntended
    rw [List.length_take, List.length_cons,
        length_filter_out_of_nodup h v hnd hmem]
    exact Nat.min_eq_right hlen

/-! ## Claim C6 -/

/-- C6: when no active join record exists and the target entity is missing
from its collection, both toggle handlers fail with a 404 NotFound before
any write: `toggleLike` returns the "not found" error for the requested
type and leaves the state untouched, and `toggleSubscription` (for an
authenticated actor, whose user document exists) returns "Channel not
found" and leaves the state untouched, so no join record is created and
every denormalized counter keeps its value. -/
theorem toggle_missing_target_not_found (db : DB) (uid : Nat) (tyParam : String)
    (id cid : Nat)
    (hty : (["video", "post", "comment"].contains (toLowerStr tyParam)) = true)
    (htarget : likesCountOfTarget db (toLowerStr tyParam) id = none)
    (hnolike : db.likes.find? (likeQueryMatches (toLowerStr tyParam) id uid) = none)
    (hactor : (findUser db uid).isSome = true)
    (hchan : findUser db cid = none)
    (hsub : findActiveSub db uid cid = none) :
    toggleLike uid tyParam id db =
      (.error { statusCode := 404, message := tyParam ++ " not found", errors := [] }, db) ∧
    toggleSubscription uid cid db =
      (.error { statusCode := 404, message := "Channel not found", errors := [] }, db) := by
  constructor
  · unfold toggleLike
    simp only [hty, htarget]
    rfl
  · have hself : (cid == uid) = false := by
      rw [beq_eq_false_iff_ne]
      intro he
      rw [he] at hchan
      rw [hchan] at hactor
      simp at hactor
    unfold toggleSubscription
    rw [hself]
    simp only [Bool.false_eq_true, if_false, hsub, hchan]

/-- C6 (witness): the statement evaluated on the sample state: actor 1
exists, video 99 is in no collection, channel 7 is no user, and no join
rows exist. -/
theorem toggle_missing_target_not_found_witness :
    toggleLike 1 "video" 99 sampleDB =
      (.error { statusCode := 404, message := "video" ++ " not found", errors := [] }, sampleDB) ∧
    toggleSubscription 1 7 sampleDB =
      (.error { statusCode := 404, message := "Channel not found", errors := [] }, sampleDB) :=
  toggle_missing_target_not_found sampleDB 1 "video" 99 7
    (by decide) (by decide) (by decide) (by decide) (by decide) (by decide)

/-! ## Claim C8 -/

/-- C8: a PATCH (`updateVideo`) or DELETE (`deleteVideo`) on an existing
video by a user who does not own it answers 404 NotFound - the single
owner-scoped lookup misses - and returns the state untouched, so every
field of the video document and all Like and View records are unchanged. -/
theorem update_delete_video_non_owner_unchanged (db : DB) (uid vid : Nat)
    (body : UpdateVideoBody)
    (hown : ∀ v ∈ db.videos, v.vid = vid → v.owner ≠ uid) :
    updateVideo uid vid body db =
      (.error { statusCode := 404, message := "Video not found or access denied", errors := [] }, db) ∧
    deleteVideo uid vid db =
      (.error { statusCode := 404, message := "Video not found or access denied", errors := [] }, db) := by
  have h1 : db.videos.find? (fun v => v.vid == vid && v.owner == uid && !v.isDeleted) = none := by
    rw [List.find?_eq_none]
    intro v hv hcon
    simp only [Bool.and_eq_true, beq_iff_eq, Bool.not_eq_true'] at hcon
    exact hown v hv hcon.1.1 hcon.1.2
  have h2 : db.videos.find? (fun v => v.vid == vid && v.owner == uid) = none := by
    rw [List.find?_eq_none]
    intro v hv hcon
    simp only [Bool.and_eq_true, beq_iff_eq] at hcon
    exact hown v hv hcon.1 hcon.2
  constructor
  · unfold updateVideo
    rw [h1]
  · unfold deleteVideo
    rw [h2]

/-- C8 (witness): the statement evaluated on the sample state, where video
5 is owned by user 2 and the caller is user 1. -/
theorem update_delete_video_non_owner_unchanged_witness :
    updateVideo 1 5 { title := none, description := none, category := none,
                      tags := none, subscribersOnly := none } sampleDB =
      (.error { statusCode := 404, message := "Video not found or access denied", errors := [] }, sampleDB) ∧
    deleteVideo 1 5 sampleDB =
      (.error { statusCode := 404, message := "Video not found or access denied", errors := [] }, sampleDB) :=
  update_delete_video_non_owner_unchanged sampleDB 1 5
    { title := none, description := none, category := none,
      tags := none, subscribersOnly := none }
    (by decide)

/-! ## Claim C5 -/

/-- Incrementing a video's views counter does not touch the view rows. -/
theorem views_incVideoViews (db : DB) (vid : Nat) (d : Int) :
    (incVideoViews db vid d).views = db.views := rfl

/-- The views increment preserves the identity-relevant video fields, so
the filtered lookup finds the incremented document. -/
theorem find_incVideoViews (db : DB) (vid : Nat) (d : Int) (p : VideoDoc → Bool)
    (hp : ∀ v : VideoDoc,
      p (if v.vid == vid && !v.isDeleted then { v with views := v.views + d } else v) = p v) :
    (incVideoViews db vid d).videos.find? p =
      ((db.videos.find? p).map (fun v =>
        if v.vid == vid && !v.isDeleted then { v with views := v.views + d } else v)) := by
  unfold incVideoViews
  rw [List.find?_map]
  have hcomp : (p ∘ fun v : VideoDoc =>
      if v.vid == vid && !v.isDeleted then { v with views := v.views + d } else v) = p := by
    funext v
    exact hp v
  rw [hcomp]

/-- An existing video's stored views counter grows by `d` under the
controller increment. -/
theorem viewsOf_incVideoViews (db : DB) (vid : Nat) (d : Int)
    (h : (db.videos.find? (fun v => v.vid == vid && !v.isDeleted)).isSome = true) :
    viewsOf (incVideoViews db vid d) vid = viewsOf db vid + d := by
  unfold viewsOf
  rw [find_incVideoViews db vid d _ (fun v => by
    by_cases hc : (v.vid == vid && !v.isDeleted) = true <;> simp [hc])]
  obtain ⟨v0, hv0⟩ := Option.isSome_iff_exists.mp h
  have hp := List.find?_some hv0
  rw [hv0]
  show (if v0.vid == vid && !v0.isDeleted then
      ({ v0 with views := v0.views + d } : VideoDoc) else v0).views = v0.views + d
  rw [if_pos hp]

/-- The views increment preserves which published videos exist. -/
theorem findPublishedVideo_incVideoViews_isSome (db : DB) (vid : Nat) (d : Int) (x : Nat) :
    (findPublishedVideo (incVideoViews db vid d) x).isSome =
      (findPublishedVideo db x).isSome := by
  unfold findPublishedVideo
  rw [find_incVideoViews db vid d _ (fun v => by
    by_cases hc : (v.vid == vid && !v.isDeleted) = true <;> simp [hc])]
  cases db.videos.find? (fun v => v.vid == x && v.isPublished && !v.isDeleted) <;> rfl

/-- C5 (counterexample): in a state where an existing View row - logged
by another client behind the same NAT - already occupies the
`(video, ipAddress)` unique index entry for the caller's ip, the
authenticated viewer-key lookup misses, so each `logView` call runs the
`Promise.all`: the `View.create` is rejected by the unique index and the
call answers 500, yet the concurrent controller `$inc` has already
applied. No View row is ever created and each call still raises the
stored views counter by 1, so two calls give +2 in total, refuting the
claimed exactly-once increment. -/
theorem logView_ip_collision_ce :
    (logView (some 1) (some "198.51.100.7") 5 ipCollisionDB).1 =
      .error { statusCode := 500,
               message := "E11000 duplicate key error on view uniqueness",
               errors := [] } ∧
    (logView (some 1) (some "198.51.100.7") 5 ipCollisionDB).2.views =
      ipCollisionDB.views ∧
    viewsOf (logView (some 1) (some "198.51.100.7") 5 ipCollisionDB).2 5 =
      viewsOf ipCollisionDB 5 + 1 ∧
    viewsOf (logView (some 1) (some "198.51.100.7") 5
      (logView (some 1) (some "198.51.100.7") 5 ipCollisionDB).2).2 5 =
      viewsOf ipCollisionDB 5 + 2 := by
  decide

/-- C5 (amended): for a published video and an authenticated user, when no
View row occupies either unique index entry the new document would take -
no row of the video carries the user as viewer and none carries the
caller's ip value (an absent ip collides with rows whose ip is absent,
since the sparse compound indexes still key such documents under null) -
the first `logView` answers 201, appends exactly one View row for the
pair and raises the stored views counter by exactly 1, and the second
`logView` answers the already-logged 200 response and changes nothing.
Outside these hypotheses the claim fails: an occupied `(video, ipAddress)`
entry makes every call answer 500 while still incrementing. -/
theorem logView_twice_single_increment (db : DB) (uid vid : Nat) (ip : Option String)
    (hpub : (findPublishedVideo db vid).isSome = true)
    (hnorow : ∀ w ∈ db.views, ¬(w.video = vid ∧ w.viewer = some uid))
    (hnoip : ∀ w ∈ db.views, ¬(w.video = vid ∧ w.ipAddress = ip)) :
    (logView (some uid) ip vid db).1 = .ok (201, "View logged successfully") ∧
    (logView (some uid) ip vid db).2.views =
      db.views ++ [{ video := vid, viewer := some uid, ipAddress := ip, isDeleted := false }] ∧
    viewsOf (logView (some uid) ip vid db).2 vid = viewsOf db vid + 1 ∧
    logView (some uid) ip vid (logView (some uid) ip vid db).2 =
      (.ok (200, "View already logged recently"), (logView (some uid) ip vid db).2) := by
  obtain ⟨v0, hv0⟩ := Option.isSome_iff_exists.mp hpub
  have hfind : db.views.find?
      (fun w => w.video == vid && w.viewer == some uid && !w.isDeleted) = none := by
    rw [List.find?_eq_none]
    intro w hw hcon
    simp only [Bool.and_eq_true, beq_iff_eq, Bool.not_eq_true'] at hcon
    exact hnorow w hw ⟨hcon.1.1, hcon.1.2⟩
  have hdup : (db.views.any (fun w => w.video == vid &&
      (w.viewer == some uid || w.ipAddress == ip))) = false := by
    rw [List.any_eq_false]
    intro w hw hcon
    simp only [Bool.and_eq_true, Bool.or_eq_true, beq_iff_eq] at hcon
    rcases hcon.2 with h2 | h2
    · exact hnorow w hw ⟨hcon.1, h2⟩
    · exact hnoip w hw ⟨hcon.1, h2⟩
  have hlog1 : logView (some uid) ip vid db =
      (.ok (201, "View logged successfully"),
       { incVideoViews db vid 1 with
         views := db.views ++
           [{ video := vid, viewer := some uid, ipAddress := ip, isDeleted := false }] }) := by
    unfold logView viewCreate
    rw [hv0]
    simp only [hfind, views_incVideoViews, hdup, Bool.false_eq_true, if_false]
  refine ⟨by rw [hlog1], by rw [hlog1], ?_, ?_⟩
  · rw [hlog1]
    show viewsOf (incVideoViews db vid 1) vid = viewsOf db vid + 1
    apply viewsOf_incVideoViews
    rw [List.find?_isSome]
    refine ⟨v0, List.mem_of_find?_eq_some hv0, ?_⟩
    have hp := List.find?_some hv0
    simp only [Bool.and_eq_true] at hp ⊢
    exact ⟨hp.1.1, hp.2⟩
  · have hpub2 : (findPublishedVideo
        ({ incVideoViews db vid 1 with views := db.views ++
           [{ video := vid, viewer := some uid, ipAddress := ip,
              isDeleted := false }] } : DB) vid).isSome = true := by
      show (findPublishedVideo (incVideoViews db vid 1) vid).isSome = true
      rw [findPublishedVideo_incVideoViews_isSome]
      exact hpub
    obtain ⟨v1, hv1⟩ := Option.isSome_iff_exists.mp hpub2
    have hex : (({ incVideoViews db vid 1 with views := db.views ++
           [{ video := vid, viewer := some uid, ipAddress := ip,
              isDeleted := false }] } : DB)).views.find?
        (fun w => w.video == vid && w.viewer == some uid && !w.isDeleted) =
        some { video := vid, viewer := some uid, ipAddress := ip, isDeleted := false } := by
      show (db.views ++ [_]).find? _ = _
      rw [List.find?_append, hfind]
      simp
    rw [hlog1]
    unfold logView
    rw [hv1]
    simp only [hex]

/-- C5 (witness): the statement evaluated on the sample state with user 1,
video 5 and a concrete request ip. -/
theorem logView_twice_single_increment_witness :
    (logView (some 1) (some "203.0.113.9") 5 sampleDB).1 = .ok (201, "View logged successfully") ∧
    (logView (some 1) (some "203.0.113.9") 5 sampleDB).2.views =
      sampleDB.views ++
        [{ video := 5, viewer := some 1, ipAddress := some "203.0.113.9", isDeleted := false }] ∧
    viewsOf (logView (some 1) (some "203.0.113.9") 5 sampleDB).2 5 = viewsOf sampleDB 5 + 1 ∧
    logView (some 1) (some "203.0.113.9") 5 (logView (some 1) (some "203.0.113.9") 5 sampleDB).2 =
      (.ok (200, "View already logged recently"),
       (logView (some 1) (some "203.0.113.9") 5 sampleDB).2) :=
  logView_twice_single_increment sampleDB 1 5 (some "203.0.113.9")
    (by decide) (by decide) (by decide)

/-! ## Claim C3 -/

/-- Unfolding of the active count over a cons cell. -/
theorem aCnt_cons (cid : Nat) (a : SubRow) (t : List SubRow) :
    aCnt cid (a :: t) =
      (if (a.channel == cid && !a.isDeleted) = true then 1 else 0) + aCnt cid t := by
  unfold aCnt
  rw [List.filter_cons]
  by_cases h : (a.channel == cid && !a.isDeleted) = true <;> simp [h] <;> omega

/-- Unfolding of the soft-deleted count over a cons cell. -/
theorem dCnt_cons (cid : Nat) (a : SubRow) (t : List SubRow) :
    dCnt cid (a :: t) =
      (if (a.channel == cid && a.isDeleted) = true then 1 else 0) + dCnt cid t := by
  unfold dCnt
  rw [List.filter_cons]
  by_cases h : (a.channel == cid && a.isDeleted) = true <;> simp [h] <;> omega

/-- The update `sdMark` preserves the row id. -/
theorem sid_sdMark (sidv : Nat) (s : SubRow) : (sdMark sidv s).sid = s.sid := by
  unfold sdMark
  split_ifs <;> rfl

/-- Soft-deleting one present active row (ids pairwise distinct) lowers the
active count of its channel by one and leaves other channels alone. -/
theorem aCnt_map_sdMark (l : List SubRow) (r : SubRow) (cid : Nat)
    (hnd : (l.map (fun s => s.sid)).Nodup)
    (hmem : r ∈ l) (hact : r.isDeleted = false) :
    aCnt cid l = aCnt cid (l.map (sdMark r.sid)) +
      (if (r.channel == cid) = true then 1 else 0) := by
  induction l with
  | nil => cases hmem
  | cons a t ih =>
    rw [List.map_cons, List.nodup_cons] at hnd
    rcases List.mem_cons.mp hmem with hra | hrt
    · subst hra
      have htid : t.map (sdMark r.sid) = t :=
        map_sdMark_id t r.sid (fun s hs hse => hnd.1 (hse ▸ List.mem_map_of_mem _ hs))
      have hmarked : sdMark r.sid r = { r with isDeleted := true } := by
        unfold sdMark
        rw [if_pos]
        rw [hact]
        simp
      rw [List.map_cons, hmarked, htid, aCnt_cons, aCnt_cons]
      by_cases hch : (r.channel == cid) = true <;>
        simp [hch, hact] <;> omega
    · have hane : a.sid ≠ r.sid := fun he => hnd.1 (he ▸ List.mem_map_of_mem _ hrt)
      rw [List.map_cons, sdMark_id_of_ne r.sid a hane, aCnt_cons, aCnt_cons,
          ih hnd.2 hrt]
      omega

/-- Soft-deleting one present active row (ids pairwise distinct) raises the
soft-deleted count of its channel by one and leaves other channels alone. -/
theorem dCnt_map_sdMark (l : List SubRow) (r : SubRow) (cid : Nat)
    (hnd : (l.map (fun s => s.sid)).Nodup)
    (hmem : r ∈ l) (hact : r.isDeleted = false) :
    dCnt cid (l.map (sdMark r.sid)) = dCnt cid l +
      (if (r.channel == cid) = true then 1 else 0) := by
  induction l with
  | nil => cases hmem
  | cons a t ih =>
    rw [List.map_cons, List.nodup_cons] at hnd
    rcases List.mem_cons.mp hmem with hra | hrt
    · subst hra
      have htid : t.map (sdMark r.sid) = t :=
        map_sdMark_id t r.sid (fun s hs hse => hnd.1 (hse ▸ List.mem_map_of_mem _ hs))
      have hmarked : sdMark r.sid r = { r with isDeleted := true } := by
        unfold sdMark
        rw [if_pos]
        rw [hact]
        simp
      rw [List.map_cons, hmarked, htid, dCnt_cons, dCnt_cons]
      by_cases hch : (r.channel == cid) = true <;>
        simp [hch, hact] <;> omega
    · have hane : a.sid ≠ r.sid := fun he => hnd.1 (he ▸ List.mem_map_of_mem _ hrt)
      rw [List.map_cons, sdMark_id_of_ne r.sid a hane, dCnt_cons, dCnt_cons,
          ih hnd.2 hrt]
      omega

/-- Hard-deleting one present row by id (ids pairwise distinct) lowers the
count its flag contributes to by one. -/
theorem aCnt_eraseP_sid (l : List SubRow) (r : SubRow) (cid : Nat)
    (hnd : (l.map (fun s => s.sid)).Nodup) (hmem : r ∈ l) :
    aCnt cid l = aCnt cid (l.eraseP (fun s => s.sid == r.sid)) +
      (if (r.channel == cid && !r.isDeleted) = true then 1 else 0) := by
  induction l with
  | nil => cases hmem
  | cons a t ih =>
    rw [List.map_cons, List.nodup_cons] at hnd
    rcases List.mem_cons.mp hmem with hra | hrt
    · subst hra
      rw [List.eraseP_cons_of_pos (by simp), aCnt_cons]
      omega
    · have hane : (a.sid == r.sid) = false :=
        beq_eq_false_iff_ne.mpr
          (fun he => hnd.1 (he ▸ List.mem_map_of_mem _ hrt))
      rw [List.eraseP_cons_of_neg (by rw [hane]; exact Bool.false_ne_true),
          aCnt_cons, aCnt_cons, ih hnd.2 hrt]
      omega

/-- Counterpart of `aCnt_eraseP_sid` for the soft-deleted count. -/
theorem dCnt_eraseP_sid (l : List SubRow) (r : SubRow) (cid : Nat)
    (hnd : (l.map (fun s => s.sid)).Nodup) (hmem : r ∈ l) :
    dCnt cid l = dCnt cid (l.eraseP (fun s => s.sid == r.sid)) +
      (if (r.channel == cid && r.isDeleted) = true then 1 else 0) := by
  induction l with
  | nil => cases hmem
  | cons a t ih =>
    rw [List.map_cons, List.nodup_cons] at hnd
    rcases List.mem_cons.mp hmem with hra | hrt
    · subst hra
      rw [List.eraseP_cons_of_pos (by simp), dCnt_cons]
      omega
    · have hane : (a.sid == r.sid) = false :=
        beq_eq_false_iff_ne.mpr
          (fun he => hnd.1 (he ▸ List.mem_map_of_mem _ hrt))
      rw [List.eraseP_cons_of_neg (by rw [hane]; exact Bool.false_ne_true),
          dCnt_cons, dCnt_cons, ih hnd.2 hrt]
      omega

/-- The views increment preserves the counter invariant. -/
theorem inv_incVideoViews (db : DB) (vid : Nat) (d : Int) (h : Inv db) :
    Inv (incVideoViews db vid d) := by
  obtain ⟨h1, h2, h3, h4, h5, h6⟩ := h
  refine ⟨h1, ?_, h3, h4, h5, h6⟩
  intro v hv
  obtain ⟨w, hw, rfl⟩ := List.mem_map.mp hv
  by_cases hc : (w.vid == vid && !w.isDeleted) = true
  · rw [if_pos hc]
    exact h2 w hw
  · rw [if_neg hc]
    exact h2 w hw

/-- Writing a nonnegative likes count into a target preserves the counter
invariant. -/
theorem inv_setTargetLikesCount (db : DB) (t : String) (id : Nat) (n : Int)
    (hn : 0 ≤ n) (h : Inv db) : Inv (setTargetLikesCount db t id n) := by
  obtain ⟨h1, h2, h3, h4, h5, h6⟩ := h
  unfold setTargetLikesCount
  split_ifs
  · refine ⟨h1, ?_, h3, h4, h5, h6⟩
    intro v hv
    obtain ⟨w, hw, rfl⟩ := List.mem_map.mp hv
    by_cases hc : (w.vid == id && !w.isDeleted) = true
    · rw [if_pos hc]; exact hn
    · rw [if_neg hc]; exact h2 w hw
  · refine ⟨h1, h2, ?_, h4, h5, h6⟩
    intro p hp
    obtain ⟨w, hw, rfl⟩ := List.mem_map.mp hp
    by_cases hc : (w.pid == id && !w.isDeleted) = true
    · rw [if_pos hc]; exact hn
    · rw [if_neg hc]; exact h3 w hw
  · refine ⟨h1, h2, h3, ?_, h5, h6⟩
    intro c hc2
    obtain ⟨w, hw, rfl⟩ := List.mem_map.mp hc2
    by_cases hc : (w.cid == id && !w.isDeleted) = true
    · rw [if_pos hc]; exact hn
    · rw [if_neg hc]; exact h4 w hw

/-- A bare controller-side increment of a channel counter preserves the
counter invariant. -/
theorem inv_incSubCount_one (db : DB) (cid : Nat) (h : Inv db) :
    Inv (incSubCount db cid 1) := by
  obtain ⟨h1, h2, h3, h4, h5, h6⟩ := h
  refine ⟨?_, h2, h3, h4, h5, h6⟩
  intro u hu
  obtain ⟨w, hw, rfl⟩ := List.mem_map.mp hu
  have hb := h1 w hw
  by_cases hc : (w.uid == cid) = true
  · rw [if_pos hc]
    show 2 * (activeSubCount db w.uid : Int) + (softDelSubCount db w.uid : Int) ≤
      w.subscribersCount + 1
    omega
  · rw [if_neg hc]
    exact hb

/-- Two increments on the same channel collapse to one map. -/
theorem incSubCount_incSubCount (db : DB) (cid : Nat) (d e : Int) :
    incSubCount (incSubCount db cid d) cid e =
      { db with users := db.users.map (fun u =>
          if u.uid == cid then
            { u with subscribersCount := u.subscribersCount + d + e } else u) } := by
  unfold incSubCount
  simp only [List.map_map]
  have hfun : ((fun u : UserDoc =>
      if (u.uid == cid) = true then
        { u with subscribersCount := u.subscribersCount + e } else u) ∘
      fun u : UserDoc =>
      if (u.uid == cid) = true then
        { u with subscribersCount := u.subscribersCount + d } else u) =
      fun u : UserDoc =>
      if (u.uid == cid) = true then
        { u with subscribersCount := u.subscribersCount + d + e } else u := by
    funext u
    by_cases hc : (u.uid == cid) = true
    · simp [Function.comp, hc]
    · simp [Function.comp, hc]
  rw [hfun]

/-- Inversion of a successful `subCreate`. -/
theorem subCreate_ok_eq (db : DB) (uid cid : Nat) (db2 : DB)
    (hok : subCreate db uid cid = .ok db2) :
    db2 = { incSubCount db cid 1 with
            subs := db.subs ++ [{ sid := db.nextSubId, subscriber := uid,
                                  channel := cid, isDeleted := false }],
            nextSubId := db.nextSubId + 1 } := by
  unfold subCreate at hok
  split_ifs at hok
  exact (Except.ok.inj hok).symm

/-- The full create path of the subscribe branch - controller increment,
hook increment and row insertion - preserves the counter invariant. -/
theorem inv_create_state (db : DB) (uid cid : Nat) (h : Inv db) :
    Inv { incSubCount (incSubCount db cid 1) cid 1 with
          subs := db.subs ++ [newSubRow db uid cid],
          nextSubId := db.nextSubId + 1 } := by
  obtain ⟨h1, h2, h3, h4, h5, h6⟩ := h
  refine ⟨?_, h2, h3, h4, ?_, ?_⟩
  · intro u hu
    have hu1 : u ∈ (incSubCount (incSubCount db cid 1) cid 1).users := hu
    rw [incSubCount_incSubCount] at hu1
    obtain ⟨w, hw, rfl⟩ := List.mem_map.mp hu1
    have hb : 2 * (aCnt w.uid db.subs : Int) + (dCnt w.uid db.subs : Int) ≤
        w.subscribersCount := h1 w hw
    by_cases hc : (w.uid == cid) = true
    · rw [if_pos hc]
      have hcid : w.uid = cid := beq_iff_eq.mp hc
      show 2 * (aCnt w.uid (db.subs ++ [newSubRow db uid cid]) : Int) +
          (dCnt w.uid (db.subs ++ [newSubRow db uid cid]) : Int) ≤
          w.subscribersCount + 1 + 1
      rw [aCnt_append, dCnt_append]
      have hA1 : aCnt w.uid [newSubRow db uid cid] = 1 := by
        simp [aCnt, newSubRow, hcid]
      have hD1 : dCnt w.uid [newSubRow db uid cid] = 0 := by
        simp [dCnt, newSubRow]
      omega
    · rw [if_neg hc]
      have hne : (cid == w.uid) = false :=
        beq_eq_false_iff_ne.mpr (fun he => hc (beq_iff_eq.mpr he.symm))
      show 2 * (aCnt w.uid (db.subs ++ [newSubRow db uid cid]) : Int) +
          (dCnt w.uid (db.subs ++ [newSubRow db uid cid]) : Int) ≤
          w.subscribersCount
      rw [aCnt_append, dCnt_append]
      have hA1 : aCnt w.uid [newSubRow db uid cid] = 0 := by
        simp [aCnt, newSubRow, hne]
      have hD1 : dCnt w.uid [newSubRow db uid cid] = 0 := by
        simp [dCnt, newSubRow]
      omega
  · intro s hs
    rcases List.mem_append.mp hs with hs1 | hs1
    · exact Nat.lt_succ_of_lt (h5 s hs1)
    · rw [List.mem_singleton.mp hs1]
      exact Nat.lt_succ_self _
  · show ((db.subs ++ [newSubRow db uid cid]).map (fun s => s.sid)).Nodup
    rw [List.map_append, List.nodup_append]
    refine ⟨h6, List.nodup_singleton _, ?_⟩
    intro x hx hx2
    obtain ⟨s, hs, rfl⟩ := List.mem_map.mp hx
    rw [List.map_singleton, List.mem_singleton] at hx2
    exact absurd hx2 (Nat.ne_of_lt (h5 s hs))

/-- The unsubscribe leg of the toggle - soft delete of the found active row
plus the controller decrement - preserves the counter invariant. -/
theorem inv_unsub_softdel (db : DB) (uid cid : Nat) (row : SubRow)
    (hfa : findActiveSub db uid cid = some row) (h : Inv db) :
    Inv (incSubCount (softDeleteSub db row.sid) cid (-1)) := by
  obtain ⟨h1, h2, h3, h4, h5, h6⟩ := h
  have hrow2 : db.subs.find?
      (fun s => s.subscriber == uid && s.channel == cid && !s.isDeleted) = some row := hfa
  have hmem : row ∈ db.subs := List.mem_of_find?_eq_some hrow2
  have hprops := List.find?_some hrow2
  simp only [Bool.and_eq_true, beq_iff_eq, Bool.not_eq_true'] at hprops
  have hch : row.channel = cid := hprops.1.2
  have hact : row.isDeleted = false := hprops.2
  refine ⟨?_, h2, h3, h4, ?_, ?_⟩
  · intro u hu
    obtain ⟨w, hw, rfl⟩ := List.mem_map.mp hu
    have hw2 : w ∈ db.users := hw
    have hb : 2 * (aCnt w.uid db.subs : Int) + (dCnt w.uid db.subs : Int) ≤
        w.subscribersCount := h1 w hw2
    have hA := aCnt_map_sdMark db.subs row w.uid h6 hmem hact
    have hD := dCnt_map_sdMark db.subs row w.uid h6 hmem hact
    by_cases hc : (w.uid == cid) = true
    · rw [if_pos hc]
      have hite : (row.channel == w.uid) = true :=
        beq_iff_eq.mpr (hch.trans (beq_iff_eq.mp hc).symm)
      rw [if_pos hite] at hA hD
      show 2 * (aCnt w.uid (db.subs.map (sdMark row.sid)) : Int) +
          (dCnt w.uid (db.subs.map (sdMark row.sid)) : Int) ≤
          w.subscribersCount + (-1)
      omega
    · rw [if_neg hc]
      have hite : ¬((row.channel == w.uid) = true) := by
        intro hcon
        exact hc (beq_iff_eq.mpr ((beq_iff_eq.mp hcon).symm.trans hch))
      rw [if_neg hite] at hA hD
      show 2 * (aCnt w.uid (db.subs.map (sdMark row.sid)) : Int) +
          (dCnt w.uid (db.subs.map (sdMark row.sid)) : Int) ≤ w.subscribersCount
      omega
  · intro s hs
    obtain ⟨w, hw, rfl⟩ := List.mem_map.mp hs
    show (sdMark row.sid w).sid < db.nextSubId
    rw [sid_sdMark]
    exact h5 w hw
  · show ((db.subs.map (sdMark row.sid)).map (fun s => s.sid)).Nodup
    rw [List.map_map]
    have hcomp : ((fun s : SubRow => s.sid) ∘ sdMark row.sid) =
        fun s : SubRow => s.sid := by
      funext s
      exact sid_sdMark row.sid s
    rw [hcomp]
    exact h6

/-- Hard-deleting a present subscription row of the channel plus the
controller decrement - the body shared by `unsubscribe` and the
unsubscribe branch of `toggleSubscription` - preserves the counter
invariant. -/
theorem inv_unsubscribe_state (db : DB) (cid : Nat) (row : SubRow)
    (hmem : row ∈ db.subs) (hch : row.channel = cid) (h : Inv db) :
    Inv (incSubCount { db with subs := db.subs.eraseP (fun s => s.sid == row.sid) }
      cid (-1)) := by
  obtain ⟨h1, h2, h3, h4, h5, h6⟩ := h
  refine ⟨?_, h2, h3, h4, ?_, ?_⟩
  · intro u hu
    obtain ⟨w, hw, rfl⟩ := List.mem_map.mp hu
    have hw2 : w ∈ db.users := hw
    have hb : 2 * (aCnt w.uid db.subs : Int) + (dCnt w.uid db.subs : Int) ≤
        w.subscribersCount := h1 w hw2
    have hA := aCnt_eraseP_sid db.subs row w.uid h6 hmem
    have hD := dCnt_eraseP_sid db.subs row w.uid h6 hmem
    by_cases hc : (w.uid == cid) = true
    · rw [if_pos hc]
      have hchw : (row.channel == w.uid) = true :=
        beq_iff_eq.mpr (hch.trans (beq_iff_eq.mp hc).symm)
      show 2 * (aCnt w.uid (db.subs.eraseP (fun s => s.sid == row.sid)) : Int) +
          (dCnt w.uid (db.subs.eraseP (fun s => s.sid == row.sid)) : Int) ≤
          w.subscribersCount + (-1)
      by_cases hdel : row.isDeleted = true
      · have hA2 : aCnt w.uid db.subs =
            aCnt w.uid (db.subs.eraseP (fun s => s.sid == row.sid)) := by
          rw [hA, show (row.channel == w.uid && !row.isDeleted) = false by
            rw [hchw, hdel]; rfl]
          simp
        have hD2 : dCnt w.uid db.subs =
            dCnt w.uid (db.subs.eraseP (fun s => s.sid == row.sid)) + 1 := by
          rw [hD, show (row.channel == w.uid && row.isDeleted) = true by
            rw [hchw, hdel]; rfl]
          simp
        omega
      · have hdel2 : row.isDeleted = false := by
          cases hx : row.isDeleted
          · rfl
          · exact absurd hx hdel
        have hA2 : aCnt w.uid db.subs =
            aCnt w.uid (db.subs.eraseP (fun s => s.sid == row.sid)) + 1 := by
          rw [hA, show (row.channel == w.uid && !row.isDeleted) = true by
            rw [hchw, hdel2]; rfl]
          simp
        have hD2 : dCnt w.uid db.subs =
            dCnt w.uid (db.subs.eraseP (fun s => s.sid == row.sid)) := by
          rw [hD, show (row.channel == w.uid && row.isDeleted) = false by
            rw [hchw, hdel2]; rfl]
          simp
        omega
    · rw [if_neg hc]
      have hchw : (row.channel == w.uid) = false :=
        beq_eq_false_iff_ne.mpr
          (fun he => hc (beq_iff_eq.mpr (he.symm.trans hch)))
      rw [show (row.channel == w.uid && !row.isDeleted) = false by
            rw [hchw]; rfl] at hA
      rw [show (row.channel == w.uid && row.isDeleted) = false by
            rw [hchw]; rfl] at hD
      simp only [Bool.false_eq_true, if_false] at hA hD
      show 2 * (aCnt w.uid (db.subs.eraseP (fun s => s.sid == row.sid)) : Int) +
          (dCnt w.uid (db.subs.eraseP (fun s => s.sid == row.sid)) : Int) ≤
          w.subscribersCount
      omega
  · intro s hs
    exact h5 s ((List.eraseP_sublist db.subs).subset hs)
  · show ((db.subs.eraseP (fun s => s.sid == row.sid)).map (fun s => s.sid)).Nodup
    exact List.Sublist.nodup (List.Sublist.map _ (List.eraseP_sublist db.subs)) h6

/-- The handler `toggleLike` preserves the counter invariant. -/
theorem inv_toggleLike (uid : Nat) (ty : String) (id : Nat) (db : DB) (h : Inv db) :
    Inv (toggleLike uid ty id db).2 := by
  unfold toggleLike
  by_cases h1 : ((["video", "post", "comment"].contains (toLowerStr ty)) = false)
  · rw [if_pos h1]
    exact h
  · rw [if_neg h1]
    have hcont : (["video", "post", "comment"].contains (toLowerStr ty)) = true := by
      cases hx : (["video", "post", "comment"].contains (toLowerStr ty))
      · exact absurd hx h1
      · rfl
    cases hval : likesCountOfTarget db (toLowerStr ty) id with
    | none => exact h
    | some c0 =>
      cases hfl : db.likes.find? (likeQueryMatches (toLowerStr ty) id uid) with
      | some l0 =>
        exact inv_setTargetLikesCount _ _ _ _ (le_max_left 0 _) h
      | none =>
        have htl : toLowerStr ty = "video" ∨ toLowerStr ty = "post" ∨
            toLowerStr ty = "comment" := by
          have h2 := hcont
          simp only [List.contains_cons, List.contains_nil, Bool.or_eq_true,
            beq_iff_eq, Bool.false_eq_true, or_false] at h2
          exact h2
        have hcr := likeCreate_enum_fail db
          { ty := toLowerStr ty,
            video := if toLowerStr ty == "video" then some id else none,
            post := if toLowerStr ty == "post" then some id else none,
            comment := if toLowerStr ty == "comment" then some id else none,
            likedBy := uid }
          (by
            rcases htl with h2 | h2 | h2 <;> rw [h2]
            · exact (by decide : (likeTypeEnum.contains "video") = false)
            · exact (by decide : (likeTypeEnum.contains "post") = false)
            · exact (by decide : (likeTypeEnum.contains "comment") = false))
        simp only [hcr]
        exact h

/-- The handler `toggleSubscription` preserves the counter invariant. -/
theorem inv_toggleSubscription (uid cid : Nat) (db : DB) (h : Inv db) :
    Inv (toggleSubscription uid cid db).2 := by
  unfold toggleSubscription
  by_cases hself : (cid == uid) = true
  · rw [if_pos hself]
    exact h
  · rw [if_neg hself]
    cases hfa : findActiveSub db uid cid with
    | some row =>
      have hfa2 : db.subs.find?
          (fun s => s.subscriber == uid && s.channel == cid && !s.isDeleted) = some row := hfa
      have hmem : row ∈ db.subs := List.mem_of_find?_eq_some hfa2
      have hprops := List.find?_some hfa2
      simp only [Bool.and_eq_true, beq_iff_eq, Bool.not_eq_true'] at hprops
      exact inv_unsubscribe_state db cid row hmem hprops.1.2 h
    | none =>
      cases hcu : findUser db cid with
      | none => exact h
      | some u =>
        dsimp only
        cases hok : subCreate (incSubCount db cid 1) uid cid with
        | error msg => exact inv_incSubCount_one db cid h
        | ok db2 =>
          rw [subCreate_ok_eq (incSubCount db cid 1) uid cid db2 hok]
          exact inv_create_state db uid cid h

/-- The handler `subscribe` preserves the counter invariant. -/
theorem inv_subscribe (uid cid : Nat) (db : DB) (h : Inv db) :
    Inv (subscribe uid cid db).2 := by
  unfold subscribe
  by_cases hself : (cid == uid) = true
  · rw [if_pos hself]
    exact h
  · rw [if_neg hself]
    cases hfa : findActiveSub db uid cid with
    | some row => exact h
    | none =>
      cases hcu : findUser db cid with
      | none => exact h
      | some u =>
        dsimp only
        cases hok : subCreate (incSubCount db cid 1) uid cid with
        | error msg => exact inv_incSubCount_one db cid h
        | ok db2 =>
          rw [subCreate_ok_eq (incSubCount db cid 1) uid cid db2 hok]
          exact inv_create_state db uid cid h

/-- The handler `unsubscribe` preserves the counter invariant. -/
theorem inv_unsubscribe (uid cid : Nat) (db : DB) (h : Inv db) :
    Inv (unsubscribe uid cid db).2 := by
  unfold unsubscribe
  cases hf : db.subs.find? (fun s => s.subscriber == uid && s.channel == cid) with
  | none => exact h
  | some row =>
    have hmem : row ∈ db.subs := List.mem_of_find?_eq_some hf
    have hprops := List.find?_some hf
    simp only [Bool.and_eq_true, beq_iff_eq] at hprops
    exact inv_unsubscribe_state db cid row hmem hprops.2 h

/-- The handler `logView` preserves the counter invariant. -/
theorem inv_logView (uidOpt : Option Nat) (ip : Option String) (vid : Nat)
    (db : DB) (h : Inv db) : Inv (logView uidOpt ip vid db).2 := by
  unfold logView viewCreate
  cases uidOpt with
  | some u =>
    cases hv : findPublishedVideo db vid with
    | none => exact h
    | some v0 =>
      dsimp only
      cases hw : db.views.find?
          (fun w => w.video == vid && w.viewer == some u && !w.isDeleted) with
      | some w0 => exact h
      | none =>
        dsimp only
        split
        · exact inv_incVideoViews db vid 1 h
        · rename_i db2 heq
          split at heq
          · exact Except.noConfusion heq
          · rw [← Except.ok.inj heq]
            exact inv_incVideoViews db vid 1 h
  | none =>
    cases hv : findPublishedVideo db vid with
    | none => exact h
    | some v0 =>
      dsimp only
      cases hw : db.views.find?
          (fun w => w.video == vid && w.ipAddress == ip && !w.isDeleted) with
      | some w0 => exact h
      | none =>
        dsimp only
        split
        · exact inv_incVideoViews db vid 1 h
        · rename_i db2 heq
          split at heq
          · exact Except.noConfusion heq
          · rw [← Except.ok.inj heq]
            exact inv_incVideoViews db vid 1 h

/-- Every modelled operation preserves the counter invariant. -/
theorem inv_applyOp (db : DB) (op : Op) (h : Inv db) : Inv (applyOp db op) := by
  cases op with
  | opToggleLike uid ty id => exact inv_toggleLike uid ty id db h
  | opToggleSubscription uid cid => exact inv_toggleSubscription uid cid db h
  | opSubscribe uid cid => exact inv_subscribe uid cid db h
  | opUnsubscribe uid cid => exact inv_unsubscribe uid cid db h
  | opLogView uidOpt ip vid => exact inv_logView uidOpt ip vid db h

/-- The invariant holds in every fresh deployment state. -/
theorem inv_initial (db : DB) (h : InitialState db) : Inv db := by
  obtain ⟨hl, hs, hv, hu, hvid, hp, hc⟩ := h
  refine ⟨?_, ?_, ?_, ?_, ?_, ?_⟩
  · intro u hu2
    rw [hu u hu2]
    show 2 * (aCnt u.uid db.subs : Int) + (dCnt u.uid db.subs : Int) ≤ 0
    rw [hs]
    simp [aCnt, dCnt]
  · intro v hv2
    exact le_of_eq (hvid v hv2).symm
  · intro p hp2
    exact le_of_eq (hp p hp2).symm
  · intro c hc2
    exact le_of_eq (hc c hc2).symm
  · intro s hs2
    rw [hs] at hs2
    cases hs2
  · rw [hs]
    exact List.nodup_nil

/-- Every reachable state satisfies the counter invariant. -/
theorem inv_reachable (db : DB) (h : Reachable db) : Inv db := by
  induction h with
  | init db h0 => exact inv_initial db h0
  | step db op h0 ih => exact inv_applyOp db op ih

/-- C3: on every state reachable from a fresh deployment, every further
toggle/subscribe/unsubscribe/logView operation leaves every denormalized
counter (subscribersCount of every user, likesCount of every video, post
and comment) nonnegative; moreover the decrement of the unlike branch is
the clamped `Math.max(0, likesCount - 1)`, which is nonnegative for every
input and maps a zero counter to zero. -/
theorem counters_nonneg_after_op (db : DB) (h : Reachable db) :
    (∀ op : Op, CountersNonneg (applyOp db op)) ∧
    (∀ c : Int, 0 ≤ clampedDec c) ∧ clampedDec 0 = 0 := by
  refine ⟨?_, fun c => le_max_left 0 _, by decide⟩
  intro op
  obtain ⟨h1, h2, h3, h4, h5, h6⟩ := inv_applyOp db op (inv_reachable db h)
  refine ⟨?_, h2, h3, h4⟩
  intro u hu
  have hb := h1 u hu
  omega

/-- C3 (witness): the theorem applied to the reachable sample state and a
concrete toggle operation. -/
theorem counters_nonneg_after_op_witness :
    CountersNonneg (applyOp sampleDB (Op.opToggleSubscription 1 2)) ∧
    (0:Int) ≤ clampedDec 0 :=
  ⟨(counters_nonneg_after_op sampleDB
      (Reachable.init sampleDB (by decide))).1 (Op.opToggleSubscription 1 2),
   (counters_nonneg_after_op sampleDB
      (Reachable.init sampleDB (by decide))).2.1 0⟩
